import Mathlib

/-!
Verification of the content-variance-engine core: a shallow embedding of
the compliance checkers (src/pipeline/compliance.py), the claim data model
(src/pipeline/schemas.py) and the variant renderers
(src/pipeline/templates.py), together with theorems settling the frozen
claims about them.

Python strings are modelled as lists of characters (abbrev Str).  Python
regular-expression behaviour is modelled for the concrete patterns the
source uses, over the ASCII character classes (the source data is ASCII;
Python additionally accepts non-ASCII digits/whitespace, which never occur
here).  Decimal and float values are modelled as exact rationals: Python
Decimal compares and hashes by numeric value, and float parsing/ordering
of the short decimal tokens in scope is exact, so the rational model agrees
with the source on every comparison the checkers and renderers perform.
-/

set_option maxRecDepth 100000
set_option linter.unusedVariables false

abbrev Str := List Char

def lit (s : String) : Str := s.data

/-- ASCII lower-casing of one character, modelling str.lower on the ASCII range. -/
def lowC (c : Char) : Char :=
  if 'A' ≤ c ∧ c ≤ 'Z' then Char.ofNat (c.toNat + 32) else c

/-- str.lower, modelled on the ASCII range. -/
def pyLower (s : Str) : Str := s.map lowC

/-- Case-insensitive character equality (re.IGNORECASE on ASCII). -/
def ciEq (a b : Char) : Bool := lowC a = lowC b

/-- Character equality as a Bool (the scanners branch on it by matching,
which keeps kernel evaluation iterative). -/
def ceq (a b : Char) : Bool := a = b

/-- Does the pattern p occur at the very start of s (case-sensitively)? -/
def leadsWith : Str → Str → Bool
  | [], _ => true
  | _ :: _, [] => false
  | p :: ps, c :: cs => p = c && leadsWith ps cs

/-- Does the pattern p occur at the very start of s, case-insensitively? -/
def leadsWithCI : Str → Str → Bool
  | [], _ => true
  | _ :: _, [] => false
  | p :: ps, c :: cs => ciEq p c && leadsWithCI ps cs

/-- Python's substring test (the in operator on str). -/
def pyContains (needle : Str) : Str → Bool
  | [] => leadsWith needle []
  | c :: t =>
    match leadsWith needle (c :: t) with
    | true => true
    | false => pyContains needle t

/-- ASCII whitespace, modelling the characters str.strip and re \s accept. -/
def isWsC (c : Char) : Bool :=
  c = ' ' || c = '\t' || c = '\n' || c = '\x0d' || c = '\x0b' || c = '\x0c'

def isDigitC (c : Char) : Bool := '0' ≤ c && c ≤ '9'

/-- re word character (ASCII): letters, digits, underscore. -/
def isWordC (c : Char) : Bool :=
  isDigitC c || ('a' ≤ c && c ≤ 'z') || ('A' ≤ c && c ≤ 'Z') || c = '_'

/-- str.strip() with no arguments: remove surrounding whitespace. -/
def pyStrip (s : Str) : Str :=
  ((s.dropWhile isWsC).reverse.dropWhile isWsC).reverse

/-- s.split()[0] of the source: the first whitespace-delimited word of s.
The none case is the IndexError Python raises when s consists entirely of
whitespace (split() is then empty). -/
def firstWord (s : Str) : Option Str :=
  match s.dropWhile isWsC with
  | [] => none
  | c :: t => some (c :: t.takeWhile (fun x => ¬ isWsC x))

/-- Order-preserving de-duplication keeping first occurrences
(dict.fromkeys, and the model of Python set construction order), with the
already-seen keys carried exactly as the dict does. -/
def firstDedupAux [DecidableEq α] (seen : List α) : List α → List α
  | [] => []
  | a :: t =>
    if a ∈ seen then firstDedupAux seen t
    else a :: firstDedupAux (a :: seen) t

def firstDedup [DecidableEq α] (l : List α) : List α := firstDedupAux [] l

/-- html.escape(s) (quote=True), one character at a time; the sequential
replacements of the stdlib agree with this character map because no
replacement output contains a character escaped by a later step's input
position (the ampersand is replaced first). -/
def escC (c : Char) : Str :=
  if c = '&' then lit "&amp;"
  else if c = '<' then lit "&lt;"
  else if c = '>' then lit "&gt;"
  else if c = '"' then lit "&quot;"
  else if c = '\'' then lit "&#x27;"
  else [c]

def pyEscape (s : Str) : Str := (s.map escC).flatten

/-- Character-reference table for the model of html.unescape, restricted to
the references html.escape produces plus the comparison entities the
repository's data uses; the stdlib's full HTML5 table extends this map but
the extra entries never occur in documents the core produces or checks. -/
def entTable : List (Str × Char) :=
  [(lit "amp;", '&'), (lit "lt;", '<'), (lit "gt;", '>'),
   (lit "quot;", '"'), (lit "#x27;", '\''), (lit "#39;", '\''),
   (lit "le;", '≤'), (lit "ge;", '≥')]

def entMatch (s : Str) : Option (Char × Nat) :=
  (entTable.find? (fun p => leadsWith p.1 s)).map (fun p => (p.2, p.1.length))

/-- html.unescape, modelled over entTable, processed one character at a
time; after a reference is replaced, the skip counter walks the scanner
past its remaining characters. -/
def unescAux : Nat → Str → Str
  | _, [] => []
  | k + 1, _ :: t => unescAux k t
  | 0, c :: t =>
    match ceq c '&' with
    | true =>
      match entMatch t with
      | some (ch, n) => ch :: unescAux n t
      | none => '&' :: unescAux 0 t
    | false => c :: unescAux 0 t

def htmlUnescape (s : Str) : Str := unescAux 0 s

/-- Everything after the first greater-than sign: the [^>]*> part of the
tag-opening pattern. -/
def gtDropP : Str → Option Str
  | [] => none
  | c :: rest =>
    match ceq c '>' with
    | true => some rest
    | false => gtDropP rest

/-- Match the opening pattern <tag[^>]*> at the start of s
(case-insensitive); on success the suffix after its closing greater-than
sign. -/
def openDropP (tag : Str) (s : Str) : Option Str :=
  match leadsWithCI ('<' :: tag) s with
  | true => gtDropP (s.drop (tag.length + 1))
  | false => none

/-- The suffix after the leftmost occurrence of the literal closing tag cl
(case-insensitive, of length n).  This is the non-greedy .*?</tag>
search. -/
def closeDropP (cl : Str) (n : Nat) : Str → Option Str
  | [] => none
  | c :: rest =>
    match leadsWithCI cl (c :: rest) with
    | true => some ((c :: rest).drop n)
    | false => closeDropP cl n rest

/-- String length through a stepwise-forced accumulator (keeps kernel
evaluation of long concrete strings iterative). -/
def strLenAux : Nat → Str → Nat
  | acc, [] => acc
  | acc, _ :: t =>
    match acc + 1 with
    | 0 => strLenAux 0 t
    | a + 1 => strLenAux (a + 1) t

def strLen (s : Str) : Nat := strLenAux 0 s

/-- One re.sub pass removing every non-overlapping leftmost match of
<tag[^>]*>.*?</tag> (DOTALL, IGNORECASE), resuming after each removed
region.  A position whose opening tag has no later closing tag is left
alone, and no later position can then match either, because the closing
tags visible from later positions are a subset of those visible here.
The first argument is structural fuel: every step consumes at least one
character, so the initial fuel strLen s + 1 always suffices and the
out-of-fuel branch is unreachable. -/
def stripFuel (tag cl : Str) (n : Nat) : Nat → Str → Str
  | 0, s => s
  | _ + 1, [] => []
  | f + 1, c :: rest =>
    match openDropP tag (c :: rest) with
    | some afterOpen =>
      match closeDropP cl n afterOpen with
      | some afterClose => stripFuel tag cl n f afterClose
      | none => c :: rest
    | none => c :: stripFuel tag cl n f rest

def stripTagGo (tag : Str) (s : Str) : Str :=
  stripFuel tag (lit "</" ++ tag ++ lit ">") (tag.length + 3) (strLen s + 1) s

/-- _strip_tags from src/pipeline/compliance.py. -/
def strip_tags (s : Str) (tags : List Str) : Str :=
  tags.foldl (fun t tag => stripTagGo tag t) s

/-- _visible_text from src/pipeline/compliance.py. -/
def visible_text (s : Str) : Str := strip_tags s [lit "style", lit "script"]

def digitsVal (s : Str) : Nat :=
  s.foldl (fun n c => n * 10 + (c.toNat - '0'.toNat)) 0

def parseDigits (s : Str) : Option Nat :=
  if s ≠ [] ∧ s.all isDigitC then some (digitsVal s) else none


/-- Exact fractions with executable arithmetic: an integer numerator over
a positive natural denominator, not kept in lowest terms.  All numeric
comparisons the source performs (Decimal equality and hashing, float
ordering) are value comparisons, implemented by cross multiplication. -/
structure Q where
  num : Int
  den : Nat
deriving DecidableEq

def qOfInt (i : Int) : Q := ⟨i, 1⟩

def qOfNat (n : Nat) : Q := ⟨(n : Int), 1⟩

def qEq (a b : Q) : Bool := a.num * (b.den : Int) = b.num * (a.den : Int)

def qLt (a b : Q) : Bool := a.num * (b.den : Int) < b.num * (a.den : Int)

def qLe (a b : Q) : Bool := a.num * (b.den : Int) ≤ b.num * (a.den : Int)

def qAdd (a b : Q) : Q := ⟨a.num * (b.den : Int) + b.num * (a.den : Int), a.den * b.den⟩

def qSub (a b : Q) : Q := ⟨a.num * (b.den : Int) - b.num * (a.den : Int), a.den * b.den⟩

def qMul (a b : Q) : Q := ⟨a.num * b.num, a.den * b.den⟩

/-- Division; the zero-divisor branch is unreachable at every call site
(divisors are powers of ten or a guarded nonzero range). -/
def qDiv (a b : Q) : Q :=
  let n := a.num * (b.den : Int)
  let d := (a.den : Int) * b.num
  if d = 0 then ⟨0, 1⟩
  else if d < 0 then ⟨-n, (-d).toNat⟩
  else ⟨n, d.toNat⟩

def qNeg (a : Q) : Q := ⟨-a.num, a.den⟩

/-- Ten to an integer power, as a fraction. -/
def qPow10 (e : Int) : Q :=
  if e < 0 then ⟨1, 10 ^ (-e).toNat⟩ else ⟨10 ^ e.toNat, 1⟩

/-- Lowest-terms form (for decimal rendering only; comparisons never
need it). -/
def qReduce (q : Q) : Q :=
  let g := Nat.gcd q.num.natAbs q.den
  if g = 0 then q else ⟨q.num.tdiv (g : Int), q.den / g⟩

/-- The unsigned mantissa of a decimal literal: digits, an optional point,
optional fraction digits; at least one digit overall. -/
def parseMant (s : Str) : Option Q :=
  let ip := s.takeWhile isDigitC
  let r := s.dropWhile isDigitC
  match r with
  | [] => if ip = [] then none else some (qOfNat (digitsVal ip))
  | '.' :: fr =>
    if fr.all isDigitC ∧ (ip ≠ [] ∨ fr ≠ []) then
      some ⟨(digitsVal ip : Int) * (10 ^ fr.length : Nat) + (digitsVal fr : Int), 10 ^ fr.length⟩
    else none
  | _ => none

def parseExp (s : Str) : Option Int :=
  match s with
  | [] => some 0
  | e :: r =>
    if e = 'e' ∨ e = 'E' then
      match r with
      | '+' :: d => (parseDigits d).map Int.ofNat
      | '-' :: d => (parseDigits d).map (fun n => -(n : Int))
      | d => (parseDigits d).map Int.ofNat
    else none

/-- The numeric value accepted by decimal.Decimal(str) for finite decimal
literals, as an exact rational; Decimal compares and hashes by numeric
value, so the rational is a faithful quotient of the Decimal object for
every comparison the checkers perform.  The special forms NaN/Infinity
and underscore digit grouping are not modelled (treated as unparseable);
no statistic or markup token in scope uses them, and a NaN statistic
compares unequal to every token exactly as an unparseable one does. -/
def parseDecimal (s : Str) : Option Q :=
  let s1 := pyStrip s
  let sgn : Int × Str :=
    match s1 with
    | [] => (1, [])
    | c :: t => if c = '+' then (1, t) else if c = '-' then (-1, t) else (1, c :: t)
  let mantStr := sgn.2.takeWhile (fun c => ¬ (c = 'e' ∨ c = 'E'))
  let expStr := sgn.2.dropWhile (fun c => ¬ (c = 'e' ∨ c = 'E'))
  match parseMant mantStr, parseExp expStr with
  | some m, some e => some (qMul (qMul (qOfInt sgn.1) m) (qPow10 e))
  | _, _ => none

/-- float(str), modelled as the exact rational the literal denotes.  The
parsed magnitudes feed chart data and color interpolation only; rounding
to binary floating point is monotone, so every order comparison the
renderers perform on the short decimal tokens in scope agrees with the
rational model. -/
def pyFloat (s : Str) : Option Q := parseDecimal s

/-- _normalize_number from src/pipeline/compliance.py: strip, remove every
percent sign, strip again, parse as Decimal. -/
def normalize_number (s : Str) : Option Q :=
  parseDecimal (pyStrip (s.filter (· ≠ '%')))

def rstripPct (s : Str) : Str := (s.reverse.dropWhile (· = '%')).reverse

/-- _parse_stat from src/pipeline/templates.py: strip, remove trailing
percent signs, parse as float. -/
def parse_stat (s : Str) : Option Q := pyFloat (rstripPct (pyStrip s))

/-- Attempt of the findall pattern (\d+\.?\d*)\s*% at a position whose
first character is c followed by rest.  On success, the captured token
and the number of characters of rest the whole match consumes (the match
consumes one more character than that, namely c itself).  The greedy
token is the only candidate the backtracking engine can accept, because
every shorter token ends just before a digit or a point, which \s*% then
fails on. -/
def pctTry (c : Char) (rest : Str) : Option (Str × Nat) :=
  if isDigitC c then
    let d1t := rest.takeWhile isDigitC
    let r1 := rest.drop d1t.length
    let d2 : Str × Nat :=
      match r1 with
      | '.' :: r1' => ('.' :: r1'.takeWhile isDigitC, 1 + (r1'.takeWhile isDigitC).length)
      | _ => ([], 0)
    let r2 := r1.drop d2.2
    let nws := (r2.takeWhile isWsC).length
    let r3 := r2.drop nws
    match r3 with
    | '%' :: _ => some (c :: (d1t ++ d2.1), d1t.length + d2.2 + nws + 1)
    | _ => none
  else none

/-- re.findall of (\d+\.?\d*)\s*% : leftmost non-overlapping matches,
scanning resumes after each match (the skip counter walks past the
consumed characters) and advances one character past a failed position. -/
def pctScanAux : Nat → Str → List Str
  | _, [] => []
  | k + 1, _ :: t => pctScanAux k t
  | 0, c :: rest =>
    match pctTry c rest with
    | some (tok, n) => tok :: pctScanAux n rest
    | none => pctScanAux 0 rest

def pctScan (s : Str) : List Str := pctScanAux 0 s

/-- Attempt of the findall pattern \b(\d+\.?\d*)\s*%? at a position whose
first character is c, given the word-character class of the preceding
character (false at the start of the text).  The optional suffix parts
never force backtracking, so the captured token is the greedy one.
Returns the capture, the characters of rest consumed, and the
word-character class of the last consumed character. -/
def numTry (c : Char) (rest : Str) (prevWord : Bool) : Option (Str × Nat × Bool) :=
  if ¬ prevWord && isDigitC c then
    let d1t := rest.takeWhile isDigitC
    let r1 := rest.drop d1t.length
    let d2 : Str × Nat :=
      match r1 with
      | '.' :: r1' => ('.' :: r1'.takeWhile isDigitC, 1 + (r1'.takeWhile isDigitC).length)
      | _ => ([], 0)
    let r2 := r1.drop d2.2
    let nws := (r2.takeWhile isWsC).length
    let r3 := r2.drop nws
    let tok := c :: (d1t ++ d2.1)
    match r3 with
    | '%' :: _ => some (tok, d1t.length + d2.2 + nws + 1, false)
    | _ =>
      if nws > 0 then some (tok, d1t.length + d2.2 + nws, false)
      else some (tok, d1t.length + d2.2, isWordC (tok.getLastD c))
  else none

def numScanAux : Nat → Bool → Str → List Str
  | _, _, [] => []
  | k + 1, pw, _ :: t => numScanAux k pw t
  | 0, pw, c :: rest =>
    match numTry c rest pw with
    | some (tok, n, lastW) => tok :: numScanAux n lastW rest
    | none => numScanAux 0 (isWordC c) rest

/-- re.findall of \b(\d+\.?\d*)\s*%? over a text. -/
def numScan (s : Str) : List Str := numScanAux 0 false s

/-- The flag-type vocabulary of src/pipeline/schemas.py.  The first five
kinds are populated only by the external semantic reviewer. -/
inductive FlagType where
  | claim_expansion
  | superiority_implication
  | dropped_qualifier
  | tone_shift
  | endpoint_misrepresentation
  | number_missing
  | citation_missing
  | unexpected_number
  | qualifier_missing
  | endpoint_missing
deriving DecidableEq, BEq

inductive Sev where
  | error
  | warning
deriving DecidableEq, BEq

structure ComplianceFlag where
  flag_type : FlagType
  severity : Sev
  location : Str
  description : Str
deriving DecidableEq, BEq

structure ComplianceReport where
  passed : Bool
  flags : List ComplianceFlag
deriving DecidableEq

/-- ClinicalClaim from src/pipeline/schemas.py (immutable value object). -/
structure ClinicalClaim where
  statistic : Str
  context : Str
  timepoint : Str
  treatment_arm : Str
  sample_size : Str
  citation : Str
  qualifiers : List Str
  endpoint : Str
deriving DecidableEq

structure ExtractionResult where
  claims : List ClinicalClaim
deriving DecidableEq

structure VariantResult where
  variant_type : Str
  html : Str
  programmatic : ComplianceReport
  semantic : ComplianceReport
  overall_passed : Bool

/-- Construction of a VariantResult as pydantic performs it: the model
validator derive_overall_passed runs after field assignment and overwrites
overall_passed with programmatic.passed AND semantic.passed, regardless of
the value the caller supplied for that field. -/
def mkVariantResult (variant_type : Str) (html : Str)
    (programmatic semantic : ComplianceReport) (overall_passed : Bool) :
    VariantResult :=
  { variant_type := variant_type, html := html,
    programmatic := programmatic, semantic := semantic,
    overall_passed := programmatic.passed && semantic.passed }

/-- The per-claim presence test of check_numbers: the raw token with
percent signs removed, or the statistic itself, occurs verbatim in the
visible text, or some numeric token of the visible text normalizes to the
same decimal value. -/
def statFound (visible : Str) (stat : Str) : Bool :=
  let raw := pyStrip (stat.filter (· ≠ '%'))
  if pyContains raw visible || pyContains stat visible then true
  else
    match normalize_number stat with
    | none => false
    | some q => (numScan visible).any (fun t =>
        match normalize_number t with
        | some q' => qEq q' q
        | none => false)

/-- check_numbers from src/pipeline/compliance.py. -/
def check_numbers (html : Str) (claims : List ClinicalClaim) : List ComplianceFlag :=
  let visible := visible_text html
  claims.filterMap (fun c =>
    if statFound visible c.statistic then none
    else some { flag_type := FlagType.number_missing, severity := Sev.error,
                location := c.statistic,
                description := lit "Source statistic " ++ c.statistic ++ lit " not found in HTML" })

/-- The seen-set loop of _check_field_present: each distinct value is
tested once, at its first occurrence. -/
def fieldGo (lowHtml : Str) (ft : FlagType) (sev : Sev) (fieldCap : Str) :
    List Str → List Str → List ComplianceFlag
  | _, [] => []
  | seen, v :: vs =>
    if v ∈ seen then fieldGo lowHtml ft sev fieldCap seen vs
    else
      if pyContains (pyLower v) lowHtml then
        fieldGo lowHtml ft sev fieldCap (v :: seen) vs
      else
        { flag_type := ft, severity := sev, location := v,
          description := fieldCap ++ lit " not found in HTML: " ++ v }
          :: fieldGo lowHtml ft sev fieldCap (v :: seen) vs

/-- _check_field_present from src/pipeline/compliance.py, parameterized by
the closed accessor the string field name selects. -/
def check_field_present (html : Str) (claims : List ClinicalClaim)
    (g : ClinicalClaim → List Str) (ft : FlagType) (sev : Sev) (fieldCap : Str) :
    List ComplianceFlag :=
  fieldGo (pyLower html) ft sev fieldCap [] ((claims.map g).flatten)

def check_citations (html : Str) (claims : List ClinicalClaim) : List ComplianceFlag :=
  check_field_present html claims (fun c => [c.citation])
    FlagType.citation_missing Sev.error (lit "Citation")

def check_qualifiers (html : Str) (claims : List ClinicalClaim) : List ComplianceFlag :=
  check_field_present html claims (fun c => c.qualifiers)
    FlagType.qualifier_missing Sev.warning (lit "Qualifiers")

def check_endpoints (html : Str) (claims : List ClinicalClaim) : List ComplianceFlag :=
  check_field_present html claims (fun c => [c.endpoint])
    FlagType.endpoint_missing Sev.warning (lit "Endpoint")

/-- De-duplication by numeric value keeping first occurrences: the model
of inserting Decimal objects into a Python set (Decimal hashes and
compares numerically, and the first inserted representative survives). -/
def dedupByValAux (seen : List Q) : List (Str × Q) → List (Str × Q)
  | [] => []
  | p :: t =>
    if seen.any (qEq p.2) then dedupByValAux seen t
    else p :: dedupByValAux (p.2 :: seen) t

def dedupByVal (l : List (Str × Q)) : List (Str × Q) := dedupByValAux [] l

/-- str(Decimal(token)) for a plain digits-and-point token: leading
coefficient zeros are dropped, fraction digits are kept, a bare point is
dropped, an empty integer part prints a single zero.  (The scientific
rendering Decimal uses when the adjusted exponent drops below -6 is not
modelled; it affects only the display text of flag locations.) -/
def decTokStr (t : Str) : Str :=
  let ip := t.takeWhile isDigitC
  let rest := t.dropWhile isDigitC
  let fr : Str := match rest with | '.' :: f => f | _ => []
  let ipn := ip.dropWhile (· = '0')
  let ipd : Str := if ipn = [] then lit "0" else ipn
  if fr = [] then ipd else ipd ++ '.' :: fr

/-- _extract_percentages from src/pipeline/compliance.py: every
number-percent token of the visible text, as (token, numeric value) pairs
de-duplicated by value, with the literal values 0 and 100 excluded. -/
def extract_percentages (text : Str) : List (Str × Q) :=
  let cleaned := visible_text text
  let all := (pctScan cleaned).filterMap (fun t => (parseDecimal t).map (fun q => (t, q)))
  dedupByVal (all.filter (fun p => ¬ (qEq p.2 (qOfNat 0) ∨ qEq p.2 (qOfNat 100))))

/-- check_unexpected_numbers from src/pipeline/compliance.py. -/
def check_unexpected_numbers (html : Str) (claims : List ClinicalClaim) :
    List ComplianceFlag :=
  let html_pcts := extract_percentages html
  let known := claims.filterMap (fun c => normalize_number c.statistic)
  html_pcts.filterMap (fun p =>
    if known.any (qEq p.2) then none
    else some { flag_type := FlagType.unexpected_number, severity := Sev.error,
                location := decTokStr p.1 ++ lit "%",
                description := lit "Percentage " ++ decTokStr p.1
                  ++ lit "% in HTML not found in source claims" })

/-- run_programmatic_compliance from src/pipeline/compliance.py: decode
entities once, run the five checkers against the decoded markup,
concatenate their flags in checker order, derive passed. -/
def run_programmatic_compliance (html : Str) (extraction : ExtractionResult) :
    ComplianceReport :=
  let decoded := htmlUnescape html
  let claims := extraction.claims
  let all_flags :=
    check_numbers decoded claims
    ++ check_citations decoded claims
    ++ check_unexpected_numbers decoded claims
    ++ check_qualifiers decoded claims
    ++ check_endpoints decoded claims
  { passed := !(all_flags.any (fun f => f.severity == Sev.error)), flags := all_flags }

def lcb : Char := '\x7b'
def rcb : Char := '\x7d'

def COLORS : List Str :=
  [lit "#0d9488", lit "#a855f7", lit "#e879a0", lit "#2d4a7a", lit "#5eead4",
   lit "#F39C12", lit "#E74C3C", lit "#8E44AD", lit "#27AE60", lit "#D35400"]

def COLORS_LIGHT : List Str :=
  [lit "#ccfbf1", lit "#e9d5ff", lit "#fce7f3", lit "#dbeafe", lit "#d1fae5",
   lit "#FDEBD0", lit "#FADBD8", lit "#E8DAEF", lit "#D5F5E3", lit "#FAD7A0"]

def ARM_BORDER_COLORS : List Str :=
  [lit "#0d9488", lit "#2d4a7a", lit "#c026d3", lit "#7c3aed", lit "#e879a0", lit "#F39C12"]

/-- COLORS[i % len(COLORS)]. -/
def colorAt (i : Nat) : Str := COLORS.getD (i % COLORS.length) []

/-- ARM_BORDER_COLORS[i % len(ARM_BORDER_COLORS)]. -/
def borderColorAt (i : Nat) : Str := ARM_BORDER_COLORS.getD (i % ARM_BORDER_COLORS.length) []

/-- _extract_drug_name from src/pipeline/templates.py.  The none case is
the IndexError Python raises when the first claim's treatment arm is a
non-empty string of pure whitespace (split() is then empty). -/
def extract_drug_name (claims : List ClinicalClaim) : Option Str :=
  match claims with
  | [] => some (lit "Clinical Data")
  | c :: _ =>
    if c.treatment_arm = [] then some (lit "Clinical Data")
    else firstWord c.treatment_arm

/-- _unique_values, parameterized by the closed accessor the string field
name selects. -/
def unique_values (claims : List ClinicalClaim) (g : ClinicalClaim → Str) : List Str :=
  firstDedup (claims.map g)

/-- _collect_qualifiers from src/pipeline/templates.py. -/
def collect_qualifiers (claims : List ClinicalClaim) : List Str :=
  firstDedup ((claims.map (fun c => c.qualifiers)).flatten)

/-- One alternative of the timepoint pattern (?:Week|Month|Day|Year)\s+([\d.]+):
unit prefix (case-insensitive), at least one whitespace, the captured
greedy digits-and-points token. -/
def tpTryUnit (u : Str) (tp : Str) : Option Str :=
  if leadsWithCI u tp then
    let r1 := tp.drop u.length
    let ws := r1.takeWhile isWsC
    if ws = [] then none
    else
      let r2 := r1.drop ws.length
      let cap := r2.takeWhile (fun c => isDigitC c || c = '.')
      if cap = [] then none else some cap
  else none

def tpMatchCap (tp : Str) : Option Str :=
  (tpTryUnit (lit "Week") tp).orElse (fun _ =>
  (tpTryUnit (lit "Month") tp).orElse (fun _ =>
  (tpTryUnit (lit "Day") tp).orElse (fun _ =>
  tpTryUnit (lit "Year") tp)))

/-- _sort_timepoint_key from src/pipeline/templates.py.  The outer none is
the ValueError float raises on a malformed captured token (for example a
token with two points); the inner unreachable branch mirrors the fact that
a successful match guarantees a leading word. -/
def sort_timepoint_key (tp : Str) : Option (Nat × Q) :=
  match tpMatchCap tp with
  | none => some (1, qOfNat 0)
  | some cap =>
    match pyFloat cap with
    | none => none
    | some val =>
      match firstWord tp with
      | none => none
      | some w =>
        let word := pyLower w
        let ord : Nat :=
          if word = lit "day" then 0
          else if word = lit "week" then 1
          else if word = lit "month" then 2
          else if word = lit "year" then 3
          else 1
        some (0, qAdd (qOfNat (ord * 1000)) val)

/-- _group_by_keys from src/pipeline/templates.py: dict-setdefault grouping,
keys in first-occurrence order, each group in original claim order. -/
def group_by_keys (claims : List ClinicalClaim) (g1 g2 : ClinicalClaim → Str) :
    List ((Str × Str) × List ClinicalClaim) :=
  (firstDedup (claims.map (fun c => (g1 c, g2 c)))).map
    (fun k => (k, claims.filter (fun c => (g1 c, g2 c) = k)))

/-- Digit list of a positive natural number; the first argument is
structural fuel, and n itself always suffices because a number has no
more base-ten digits than its own magnitude. -/
def natDigitsAux : Nat → Nat → Str
  | _, 0 => []
  | 0, _ + 1 => []
  | f + 1, n + 1 => natDigitsAux f ((n + 1) / 10) ++ [Char.ofNat ('0'.toNat + (n + 1) % 10)]

/-- Decimal rendering of a natural number. -/
def natToStr (n : Nat) : Str := if n = 0 then lit "0" else natDigitsAux n n

def intToStr (i : Int) : Str :=
  if i < 0 then '-' :: natToStr i.natAbs else natToStr i.natAbs

def denPowK (d : Nat) : Option Nat := (List.range 31).find? (fun k => 10 ^ k % d = 0)

/-- Decimal rendering of a rational magnitude, modelling repr of the
corresponding Python float for the short decimal values in scope (an
integral value prints with a trailing .0, exactly as json.dumps prints a
float).  Only ever emitted inside script blocks, which every compliance
check strips from visible text. -/
def ppQ (q0 : Q) : Str :=
  let q := qReduce q0
  if q.den = 1 then intToStr q.num ++ lit ".0"
  else
    match denPowK q.den with
    | some k =>
      let m := q.num.natAbs * (10 ^ k / q.den)
      let ds := natToStr m
      let ds' := if ds.length ≤ k then List.replicate (k + 1 - ds.length) '0' ++ ds else ds
      (if q.num < 0 then ['-'] else []) ++ ds'.take (ds'.length - k) ++ '.' :: ds'.drop (ds'.length - k)
    | none => intToStr q.num ++ '/' :: natToStr q.den

/-- json.dumps of the chart data entry val if val is not None else 0:
a missing magnitude is the integer zero, a present one a float. -/
def ppNumJ : Option Q → Str
  | none => lit "0"
  | some q => ppQ q

def hexDigit (n : Nat) : Char :=
  if n < 10 then Char.ofNat ('0'.toNat + n) else Char.ofNat ('a'.toNat + n - 10)

def hex4 (n : Nat) : Str :=
  [hexDigit (n / 4096 % 16), hexDigit (n / 256 % 16), hexDigit (n / 16 % 16), hexDigit (n % 16)]

/-- json.dumps string escaping with the default ensure_ascii=True, for
characters of the basic multilingual plane (astral characters, which
would need surrogate pairs, do not occur in the data in scope). -/
def jsonEscC (c : Char) : Str :=
  if c = '"' then lit "\\\""
  else if c = '\\' then lit "\\\\"
  else if c = '\n' then lit "\\n"
  else if c = '\x0d' then lit "\\r"
  else if c = '\t' then lit "\\t"
  else if c.toNat < 0x20 then lit "\\u" ++ hex4 c.toNat
  else if c.toNat > 0x7e then lit "\\u" ++ hex4 c.toNat
  else [c]

def jsonStr (s : Str) : Str := '"' :: (s.map jsonEscC).flatten ++ lit "\""

def joinSep (sep : Str) : List Str → Str
  | [] => []
  | [x] => x
  | x :: xs => x ++ sep ++ joinSep sep xs

/-- json.dumps of a list, rendered items supplied. -/
def jsonArr (items : List Str) : Str := '[' :: joinSep (lit ", ") items ++ lit "]"
def skelS1 : Str :=
  lit "<!DOCTYPE html>\n<html lang=\"en\">\n<head>\n    <meta charset=\"UTF-8\">\n    <meta name=\"viewport\" content=\"width=device-width, initial-scale=1.0\">\n    <title>"

def skelS2 : Str :=
  lit "</title>"

def s3pre : Str := lit "\n    "

def s3ctA : Str :=
  lit "\n        @import url('https://fonts.googleapis.com/css2?family=Inter:wght@300;400;500;600;700;800"

def s3ctB : Str :=
  lit "display=swap');\n\n        :root \x7b\n            --color-navy: #1a2b4a;\n            --color-navy-light: #2d4a7a;\n            --color-teal: #0d9488;\n            --color-teal-light: #5eead4;\n            --color-magenta: #a855f7;\n            --color-magenta-light: #e9d5ff;\n            --color-rose: #e879a0;\n            --color-text: #1e293b;\n            --color-text-secondary: #64748b;\n            --color-text-muted: #94a3b8;\n            --color-surface: rgba(255, 255, 255, 0.72);\n            --color-surface-hover: rgba(2"
    ++ lit "55, 255, 255, 0.88);\n            --color-border: rgba(148, 163, 184, 0.2);\n            --gradient-bg: linear-gradient(135deg, #f0e6ff 0%, #e8f0fe 30%, #fce7f3 60%, #e0f2fe 100%);\n            --gradient-header: linear-gradient(135deg, #1a2b4a 0%, #2d4a7a 50%, #4a3a6a 100%);\n            --gradient-accent: linear-gradient(135deg, #0d9488 0%, #a855f7 100%);\n            --shadow-card: 0 4px 24px rgba(0, 0, 0, 0.06), 0 1px 2px rgba(0, 0, 0, 0.04);\n            --shadow-card-hover: 0 12px 40px rgba(0, 0, 0, 0.1), 0 4px 8px"
    ++ lit " rgba(0, 0, 0, 0.06);\n            --radius: 16px;\n            --radius-sm: 8px;\n            --radius-xs: 4px;\n        \x7d\n\n        *, *::before, *::after \x7b\n            box-sizing: border-box;\n            margin: 0;\n            padding: 0;\n        \x7d\n\n        body \x7b\n            font-family: 'Inter', -apple-system, BlinkMacSystemFont, 'Segoe UI', sans-serif;\n            color: var(--color-text);\n            background: var(--gradient-bg);\n            min-height: 100vh;\n            line-height: 1.6;\n            -webkit-f"
    ++ lit "ont-smoothing: antialiased;\n        \x7d\n\n        .page-header \x7b\n            background: var(--gradient-header);\n            padding: 40px 48px 32px;\n            margin-bottom: 32px;\n        \x7d\n\n        .page-header h1 \x7b\n            color: white;\n            font-size: 2rem;\n            font-weight: 800;\n            letter-spacing: -0.03em;\n            text-transform: uppercase;\n            margin: 0;\n        \x7d\n\n        .page-header .subtitle \x7b\n            color: rgba(255,255,255,0.7);\n            font-size: 0.875rem;\n"
    ++ lit "            font-weight: 400;\n            margin-top: 4px;\n            letter-spacing: 0.05em;\n            text-transform: uppercase;\n        \x7d\n\n        .container \x7b\n            max-width: 1200px;\n            margin: 0 auto;\n            padding: 0 32px 48px;\n        \x7d\n\n        .card \x7b\n            background: var(--color-surface);\n            backdrop-filter: blur(20px);\n            -webkit-backdrop-filter: blur(20px);\n            border: 1px solid var(--color-border);\n            border-radius: var(--radius);\n     "
    ++ lit "       padding: 28px 32px;\n            margin-bottom: 24px;\n            box-shadow: var(--shadow-card);\n            transition: box-shadow 0.3s ease, transform 0.3s ease;\n        \x7d\n\n        .card:hover \x7b\n            box-shadow: var(--shadow-card-hover);\n            transform: translateY(-1px);\n        \x7d\n\n        h2 \x7b\n            font-size: 1.125rem;\n            font-weight: 700;\n            color: var(--color-navy);\n            margin-bottom: 20px;\n            letter-spacing: -0.01em;\n        \x7d\n\n        h3 \x7b\n      "
    ++ lit "      font-size: 0.875rem;\n            font-weight: 600;\n            color: var(--color-text-secondary);\n            margin-bottom: 12px;\n            text-transform: uppercase;\n            letter-spacing: 0.06em;\n        \x7d\n\n        table \x7b\n            width: 100%;\n            border-collapse: collapse;\n            font-size: 0.8125rem;\n        \x7d\n\n        th \x7b\n            font-weight: 600;\n            text-align: left;\n            padding: 10px 16px;\n            border-bottom: 2px solid var(--color-navy);\n          "
    ++ lit "  color: var(--color-navy);\n            text-transform: uppercase;\n            font-size: 0.6875rem;\n            letter-spacing: 0.08em;\n        \x7d\n\n        td \x7b\n            padding: 10px 16px;\n            border-bottom: 1px solid var(--color-border);\n            color: var(--color-text);\n        \x7d\n\n        tr:last-child td \x7b\n            border-bottom: none;\n        \x7d\n\n        .citation \x7b\n            font-size: 0.7rem;\n            color: var(--color-text-muted);\n            line-height: 1.5;\n            margin-top: "
    ++ lit "8px;\n        \x7d\n\n        .qualifier \x7b\n            display: inline-block;\n            background: var(--color-magenta-light);\n            color: #7c3aed;\n            font-size: 0.6875rem;\n            font-weight: 500;\n            padding: 4px 12px;\n            border-radius: 20px;\n            margin-right: 6px;\n            margin-bottom: 6px;\n        \x7d\n\n        .footer-section \x7b\n            margin-top: 40px;\n            padding-top: 24px;\n            border-top: 1px solid var(--color-border);\n        \x7d\n\n        .foot"
    ++ lit "er-section h2 \x7b\n            font-size: 0.75rem;\n            text-transform: uppercase;\n            letter-spacing: 0.1em;\n            color: var(--color-text-muted);\n            margin-bottom: 12px;\n        \x7d\n\n        "

/-- The style-block content of the skeleton, split at its single
ampersand. -/
def s3ct : Str := s3ctA ++ '&' :: s3ctB

/-- The skeleton segment holding the opening style tag, assembled from
the split pieces (the concatenation is verbatim the source text). -/
def skelS3 : Str := s3pre ++ ('<' :: lit "style") ++ '>' :: s3ct

def s4ct : Str :=
  lit "\n\n        @media print \x7b\n            body \x7b\n                background: white;\n            \x7d\n            .page-header \x7b\n                -webkit-print-color-adjust: exact;\n                print-color-adjust: exact;\n            \x7d\n            .container \x7b\n                max-width: none;\n                padding: 0;\n            \x7d\n            .card \x7b\n                box-shadow: none;\n                border: 1px solid #ddd;\n                break-inside: avoid;\n            \x7d\n        \x7d\n    "

def s4tail : Str :=
  lit "\n</head>\n<body>\n    <div class=\"page-header\">\n        <h1>"

/-- The skeleton segment closing the style block (verbatim the source
text, split at the closing tag). -/
def skelS4 : Str := s4ct ++ (lit "</" ++ lit "style" ++ lit ">") ++ s4tail
def skelS5 : Str :=
  lit "</h1>\n        "

def skelS6 : Str :=
  lit "\n    </div>\n    <div class=\"container\">\n        "

def skelS7 : Str :=
  lit "\n    </div>\n    "

def skelS8 : Str :=
  lit "\n</body>\n</html>"

def spotlightCSS : Str :=
  lit "\n        .spotlight-grid \x7b\n            display: grid;\n            grid-template-columns: repeat(auto-fit, minmax(320px, 1fr));\n            gap: 24px;\n            margin-bottom: 24px;\n        \x7d\n        .spotlight-card \x7b\n            background: var(--color-surface);\n            backdrop-filter: blur(20px);\n            -webkit-backdrop-filter: blur(20px);\n            border: 1px solid var(--color-border);\n            border-radius: var(--radius);\n            padding: 28px 32px;\n            box-shadow: var(--shadow-card);\n            transition: box-shadow 0.3s ease, transform 0.3s ease;\n        \x7d"
    ++ lit "\n        .spotlight-card:hover \x7b\n            box-shadow: var(--shadow-card-hover);\n            transform: translateY(-2px);\n        \x7d\n        .spotlight-hero-stat \x7b\n            font-size: 3rem;\n            font-weight: 800;\n            background: var(--gradient-accent);\n            -webkit-background-clip: text;\n            -webkit-text-fill-color: transparent;\n            background-clip: text;\n            line-height: 1.1;\n            margin-bottom: 8px;\n        \x7d\n        .spotlight-subtitle \x7b\n            font-size: 0.875rem;\n            color: var(--color-text-secondary);\n            margi"
    ++ lit "n-bottom: 16px;\n        \x7d\n        .stat-row \x7b\n            display: flex;\n            flex-wrap: wrap;\n            align-items: baseline;\n            gap: 8px;\n            padding: 8px 0;\n            border-top: 1px solid var(--color-border);\n        \x7d\n        .stat-label \x7b\n            font-size: 0.8rem;\n            color: var(--color-text-secondary);\n            flex: 1;\n        \x7d\n        .stat-value \x7b\n            font-size: 1rem;\n            font-weight: 600;\n            color: var(--color-navy);\n        \x7d\n        .stat-endpoint \x7b\n            font-size: 0.75rem;\n            color: var(--color"
    ++ lit "-text-muted);\n            width: 100%;\n        \x7d\n    "

def heatmapCSS : Str :=
  lit "\n        .color-legend \x7b\n            display: flex;\n            align-items: center;\n            gap: 12px;\n            margin-bottom: 24px;\n            padding: 12px 16px;\n            background: var(--color-surface);\n            border-radius: var(--radius-sm);\n            border: 1px solid var(--color-border);\n            width: fit-content;\n        \x7d\n        .legend-bar \x7b\n            width: 200px;\n            height: 12px;\n            border-radius: 6px;\n            background: linear-gradient(90deg, #e0f2fe 0%, #0d9488 50%, #1a2b4a 100%);\n        \x7d\n        .legend-label \x7b\n            font"
    ++ lit "-size: 0.6875rem;\n            font-weight: 600;\n            color: var(--color-text-secondary);\n            text-transform: uppercase;\n            letter-spacing: 0.06em;\n        \x7d\n    "

def infographicCSS : Str :=
  lit "\n        .hero \x7b\n            background: var(--gradient-header);\n            color: white;\n            border-radius: var(--radius);\n            padding: 48px 32px;\n            text-align: center;\n            margin-bottom: 24px;\n        \x7d\n        .hero-stat \x7b\n            font-size: 4rem;\n            font-weight: 800;\n            line-height: 1;\n            margin-bottom: 12px;\n        \x7d\n        .hero-label \x7b\n            font-size: 1.1rem;\n            opacity: 0.9;\n            margin-bottom: 8px;\n        \x7d\n        .hero-context \x7b\n            font-size: 0.875rem;\n            opacity: 0.7;\n     "
    ++ lit "   \x7d\n        .detail-grid \x7b\n            display: grid;\n            grid-template-columns: repeat(auto-fit, minmax(280px, 1fr));\n            gap: 16px;\n            margin-bottom: 24px;\n        \x7d\n        .detail-item \x7b\n            background: var(--color-surface);\n            backdrop-filter: blur(20px);\n            -webkit-backdrop-filter: blur(20px);\n            border: 1px solid var(--color-border);\n            border-radius: var(--radius-sm);\n            padding: 20px 24px;\n            transition: box-shadow 0.3s ease;\n        \x7d\n        .detail-item:hover \x7b\n            box-shadow: var(--shad"
    ++ lit "ow-card-hover);\n        \x7d\n        .detail-stat \x7b\n            font-size: 1.75rem;\n            font-weight: 700;\n            color: var(--color-navy);\n        \x7d\n        .detail-arm \x7b\n            font-size: 0.875rem;\n            color: var(--color-text);\n            margin-top: 4px;\n        \x7d\n        .detail-meta \x7b\n            font-size: 0.75rem;\n            color: var(--color-text-muted);\n            margin-top: 8px;\n        \x7d\n    "



/-- _build_chart_script from src/pipeline/templates.py; title is None when
omitted, and an empty-string title is falsy exactly as in the source. -/
def build_chart_script (canvas_id chart_type labels_json datasets_json : Str)
    (title : Option Str) : Str :=
  let title_opt : Str :=
    match title with
    | some ts =>
      if ts = [] then []
      else
        lit "title: \x7b display: true, text: " ++ jsonStr ts
          ++ lit ", font: \x7b size: 14, family: 'Inter', weight: '600' \x7d, color: '#1a2b4a' \x7d"
    | none => []
  let legend_opt := lit "legend: \x7b labels: \x7b font: \x7b size: 11, family: 'Inter' \x7d, usePointStyle: true, pointStyle: 'circle' \x7d \x7d"
  let plugins := lit "plugins: \x7b " ++ title_opt
    ++ (if title_opt = [] then [] else lit ", ") ++ legend_opt ++ lit " \x7d"
  let scales :=
    if chart_type = lit "bar" then
      lit "scales: \x7b y: \x7b grid: \x7b color: 'rgba(148,163,184,0.15)' \x7d, ticks: \x7b font: \x7b size: 11, family: 'Inter' \x7d \x7d \x7d, x: \x7b grid: \x7b display: false \x7d, ticks: \x7b font: \x7b size: 11, family: 'Inter' \x7d \x7d \x7d \x7d"
    else
      lit "scales: \x7b y: \x7b grid: \x7b color: 'rgba(148,163,184,0.15)' \x7d, ticks: \x7b font: \x7b size: 11, family: 'Inter' \x7d \x7d \x7d, x: \x7b grid: \x7b color: 'rgba(148,163,184,0.08)' \x7d, ticks: \x7b font: \x7b size: 11, family: 'Inter' \x7d \x7d \x7d \x7d"
  lit "\nnew Chart(document.getElementById('" ++ canvas_id ++ lit "'), \x7b\n  type: '"
    ++ chart_type ++ lit "',\n  data: \x7b labels: " ++ labels_json
    ++ lit ", datasets: " ++ datasets_json
    ++ lit " \x7d,\n  options: \x7b responsive: true, " ++ plugins ++ lit ", " ++ scales
    ++ lit " \x7d\n\x7d);"

/-- _build_data_table from src/pipeline/templates.py. -/
def build_data_table (claims : List ClinicalClaim) : Str :=
  let rows := (claims.map (fun c =>
    lit "<tr><td>" ++ pyEscape c.treatment_arm ++ lit "</td><td>" ++ pyEscape c.statistic
      ++ lit "</td><td>" ++ pyEscape c.context ++ lit "</td><td>" ++ pyEscape c.sample_size
      ++ lit "</td></tr>\n")).flatten
  lit "<table><thead><tr><th>Treatment Arm</th><th>Statistic</th><th>Context</th><th>Sample Size</th></tr></thead><tbody>"
    ++ rows ++ lit "</tbody></table>"

/-- _build_citations_section from src/pipeline/templates.py. -/
def build_citations_section (claims : List ClinicalClaim) : Str :=
  let citations := unique_values claims (fun c => c.citation)
  lit "<h2>Citations</h2>"
    ++ (citations.map (fun c => lit "<p class=\"citation\">" ++ pyEscape c ++ lit "</p>")).flatten

/-- _build_qualifiers_section from src/pipeline/templates.py. -/
def build_qualifiers_section (claims : List ClinicalClaim) : Str :=
  let qualifiers := collect_qualifiers claims
  if qualifiers = [] then []
  else
    lit "<h2>Qualifiers</h2><div>"
      ++ (qualifiers.map (fun q => lit "<span class=\"qualifier\">" ++ pyEscape q ++ lit "</span>")).flatten
      ++ lit "</div>"

/-- _build_footer from src/pipeline/templates.py. -/
def build_footer (claims : List ClinicalClaim) : Str :=
  lit "<div class=\"footer-section\">" ++ build_citations_section claims
    ++ build_qualifiers_section claims ++ lit "</div>"

/-- _html_skeleton from src/pipeline/templates.py, assembled from the
verbatim literal segments skelS1 .. skelS8.  The title is inserted
unescaped, exactly as the source does; the drug name and variant label
are escaped. -/
def html_skeleton (title body script : Str) (include_chart_js : Bool)
    (extra_css : Str) (drug_name : Str) (variant_label : Str) : Str :=
  let chart_js_tag :=
    if include_chart_js then
      lit "\n    <script src=\"https://cdn.jsdelivr.net/npm/chart.js\"></script>"
    else []
  let subtitle_html :=
    if variant_label = [] then []
    else lit "<div class=\"subtitle\">" ++ pyEscape variant_label ++ lit "</div>"
  skelS1 ++ title ++ skelS2 ++ chart_js_tag ++ skelS3 ++ extra_css ++ skelS4
    ++ pyEscape drug_name ++ skelS5 ++ subtitle_html ++ skelS6 ++ body ++ skelS7
    ++ script ++ skelS8

/-- One dataset dict of render_grouped_bar (also used by the single-
timepoint fallback of render_timeline). -/
def gbDataset (p : Str × (Option Q × Str)) : Str :=
  lit "\x7b\"label\": " ++ jsonStr p.1 ++ lit ", \"data\": [" ++ ppNumJ p.2.1
    ++ lit "], \"backgroundColor\": " ++ jsonStr p.2.2
    ++ lit ", \"borderRadius\": 6, \"borderSkipped\": false\x7d"

/-- render_grouped_bar from src/pipeline/templates.py. -/
def render_grouped_bar (claims : List ClinicalClaim) : Option Str :=
  match extract_drug_name claims with
  | none => none
  | some drug_name =>
    let groups := group_by_keys claims (fun c => c.timepoint) (fun c => c.endpoint)
    let cards := groups.enum.map (fun p =>
      let timepoint := p.2.1.1
      let endpoint := p.2.1.2
      let group := p.2.2
      let canvas_id := lit "chart-" ++ natToStr p.1
      lit "<div class=\"card\"><h2>" ++ pyEscape endpoint ++ lit " — " ++ pyEscape timepoint
        ++ lit "</h2><canvas id=\"" ++ canvas_id ++ lit "\"></canvas>"
        ++ build_data_table group ++ lit "</div>")
    let scripts := groups.enum.map (fun p =>
      let timepoint := p.2.1.1
      let endpoint := p.2.1.2
      let group := p.2.2
      let canvas_id := lit "chart-" ++ natToStr p.1
      let arms := unique_values group (fun c => c.treatment_arm)
      let values := group.map (fun c => parse_stat c.statistic)
      let colors := arms.enum.map (fun q => colorAt q.1)
      let datasets_json := jsonArr ((arms.zip (values.zip colors)).map gbDataset)
      let title_text := endpoint ++ lit " — " ++ timepoint
      build_chart_script canvas_id (lit "bar") (jsonArr [jsonStr endpoint]) datasets_json
        (some title_text))
    let body := joinSep (lit "\n") (cards ++ [build_footer claims])
    let script := lit "<script>" ++ joinSep (lit "\n") scripts ++ lit "</script>"
    let title := drug_name ++ lit " Efficacy by Subgroup"
    some (html_skeleton title body script true [] drug_name (lit "Efficacy by Subgroup"))

/-- _render_timeline_as_bar from src/pipeline/templates.py. -/
def render_timeline_as_bar (claims : List ClinicalClaim) : Option Str :=
  match extract_drug_name claims with
  | none => none
  | some drug_name =>
    let arms := unique_values claims (fun c => c.treatment_arm)
    let values := claims.map (fun c => parse_stat c.statistic)
    let colors := arms.enum.map (fun q => colorAt q.1)
    let endpoint := match claims with | [] => lit "Data" | c :: _ => c.endpoint
    let datasets_json := jsonArr ((arms.zip (values.zip colors)).map gbDataset)
    let body :=
      lit "<div class=\"card\"><h2>" ++ pyEscape endpoint
        ++ lit "</h2><canvas id=\"chart-0\"></canvas>" ++ build_data_table claims
        ++ lit "</div>" ++ build_footer claims
    let script :=
      lit "<script>"
        ++ build_chart_script (lit "chart-0") (lit "bar") (jsonArr [jsonStr endpoint])
            datasets_json none
        ++ lit "\n</script>"
    let title := drug_name ++ lit " Response Over Time"
    some (html_skeleton title body script true [] drug_name (lit "Response Over Time"))

def tupLe (a b : Nat × Q) : Bool := a.1 < b.1 || (a.1 = b.1 && qLe a.2 b.2)

def insertLe (x : Str × (Nat × Q)) : List (Str × (Nat × Q)) → List (Str × (Nat × Q))
  | [] => [x]
  | y :: t => if tupLe y.2 x.2 then y :: insertLe x t else x :: y :: t

/-- Python sorted with a key function: stable ascending order on the
tuple keys (equal keys keep encounter order). -/
def sortTimepoints (tps : List Str) : Option (List Str) :=
  (tps.mapM (fun tp => (sort_timepoint_key tp).map (fun k => (tp, k)))).map
    (fun pairs => (pairs.foldl (fun acc x => insertLe x acc) []).map (fun p => p.1))

/-- One dataset dict of render_timeline; d carries (index, arm, data). -/
def tlDataset (i : Nat) (arm : Str) (data : List Str) : Str :=
  lit "\x7b\"label\": " ++ jsonStr arm ++ lit ", \"data\": [" ++ joinSep (lit ", ") data
    ++ lit "], \"borderColor\": " ++ jsonStr (colorAt i)
    ++ lit ", \"backgroundColor\": " ++ jsonStr (colorAt i)
    ++ lit ", \"fill\": false, \"tension\": 0.3, \"pointRadius\": 5, \"pointHoverRadius\": 7\x7d"

/-- The chart value for one timepoint of one series: the last claim of the
group with that timepoint wins (dict-comprehension overwrite), a missing
or unparseable magnitude becomes the integer zero. -/
def tlDataVal (group : List ClinicalClaim) (tp : Str) : Str :=
  match group.reverse.find? (fun c => c.timepoint = tp) with
  | some c => ppNumJ (parse_stat c.statistic)
  | none => lit "0"

/-- render_timeline from src/pipeline/templates.py. -/
def render_timeline (claims : List ClinicalClaim) : Option Str :=
  match extract_drug_name claims with
  | none => none
  | some drug_name =>
    let timepoints := unique_values claims (fun c => c.timepoint)
    if timepoints.length ≤ 1 then render_timeline_as_bar claims
    else
      match sortTimepoints timepoints with
      | none => none
      | some sorted_tps =>
        let groups := group_by_keys claims (fun c => c.treatment_arm) (fun c => c.endpoint)
        let endpoints := unique_values claims (fun c => c.endpoint)
        let cards := endpoints.enum.map (fun p =>
          let ep := p.2
          let canvas_id := lit "chart-" ++ natToStr p.1
          let ep_claims := claims.filter (fun c => c.endpoint = ep)
          lit "<div class=\"card\"><h2>" ++ pyEscape ep ++ lit "</h2><canvas id=\""
            ++ canvas_id ++ lit "\"></canvas>" ++ build_data_table ep_claims ++ lit "</div>")
        let scripts := endpoints.enum.map (fun p =>
          let ep := p.2
          let canvas_id := lit "chart-" ++ natToStr p.1
          let ep_groups := groups.filter (fun kv => kv.1.2 = ep)
          let datasets := ep_groups.enum.map (fun q =>
            tlDataset q.1 q.2.1.1 (sorted_tps.map (tlDataVal q.2.2)))
          build_chart_script canvas_id (lit "line") (jsonArr (sorted_tps.map jsonStr))
            (jsonArr datasets) (some ep))
        let body := joinSep (lit "\n") (cards ++ [build_footer claims])
        let script := lit "<script>" ++ joinSep (lit "\n") scripts ++ lit "</script>"
        let title := drug_name ++ lit " Response Over Time"
        some (html_skeleton title body script true [] drug_name (lit "Response Over Time"))

/-- render_spotlight_cards from src/pipeline/templates.py.  The empty
branch of the inner match is unreachable: every context in the list has
at least one claim. -/
def render_spotlight_cards (claims : List ClinicalClaim) : Option Str :=
  match extract_drug_name claims with
  | none => none
  | some drug_name =>
    let contexts := unique_values claims (fun c => c.context)
    let cards := contexts.enum.map (fun p =>
      let ctx := p.2
      let ctx_claims := claims.filter (fun c => c.context = ctx)
      match ctx_claims with
      | [] => []
      | hero :: _ =>
        let border_color := borderColorAt p.1
        let stat_items := (ctx_claims.map (fun c =>
          lit "<div class=\"stat-row\"><span class=\"stat-label\">" ++ pyEscape c.treatment_arm
            ++ lit "</span><span class=\"stat-value\">" ++ pyEscape c.statistic
            ++ lit "</span><span class=\"stat-endpoint\">" ++ pyEscape c.endpoint
            ++ lit " — " ++ pyEscape c.timepoint ++ lit "</span></div>")).flatten
        lit "<div class=\"spotlight-card\" style=\"border-left: 4px solid " ++ border_color
          ++ lit ";\"><div class=\"spotlight-hero-stat\">" ++ pyEscape hero.statistic
          ++ lit "</div><div class=\"spotlight-subtitle\">" ++ pyEscape hero.treatment_arm
          ++ lit "</div><h3>" ++ pyEscape ctx ++ lit "</h3>" ++ stat_items ++ lit "</div>")
    let grid := lit "<div class=\"spotlight-grid\">" ++ cards.flatten ++ lit "</div>"
    let body := grid ++ build_footer claims
    let title := drug_name ++ lit " Clinical Spotlight"
    some (html_skeleton title body [] false spotlightCSS drug_name (lit "Clinical Spotlight"))

/-- int() truncation toward zero of an exact rational. -/
def pyInt (q : Q) : Int := q.num.tdiv (q.den : Int)

/-- The linear color interpolation of render_heatmap, over the exact
rational magnitudes. -/
def heatCellColor (min_val val_range : Q) (stat : Str) : Str :=
  match parse_stat stat with
  | none => lit "#FFFFFF"
  | some v =>
    let t := qDiv (qSub v min_val) val_range
    let r := pyInt (qAdd (qOfNat 224) (qMul (qOfInt (26 - 224)) t))
    let g := pyInt (qAdd (qOfNat 242) (qMul (qOfInt (43 - 242)) t))
    let b := pyInt (qAdd (qOfNat 254) (qMul (qOfInt (74 - 254)) t))
    lit "rgb(" ++ intToStr r ++ lit "," ++ intToStr g ++ lit "," ++ intToStr b ++ lit ")"

def heatCellTextColor (min_val val_range : Q) (stat : Str) : Str :=
  match parse_stat stat with
  | none => lit "#1e293b"
  | some v =>
    if qLt ⟨6, 10⟩ (qDiv (qSub v min_val) val_range) then lit "#ffffff" else lit "#1a2b4a"

def qMinList (l : List Q) (d : Q) : Q :=
  match l with
  | [] => d
  | x :: t => t.foldl (fun a b => if qLt b a then b else a) x

def qMaxList (l : List Q) (d : Q) : Q :=
  match l with
  | [] => d
  | x :: t => t.foldl (fun a b => if qLt a b then b else a) x

/-- render_heatmap from src/pipeline/templates.py. -/
def render_heatmap (claims : List ClinicalClaim) : Option Str :=
  match extract_drug_name claims with
  | none => none
  | some drug_name =>
    let groups := group_by_keys claims (fun c => c.timepoint) (fun c => c.endpoint)
    let all_vals := claims.filterMap (fun c => parse_stat c.statistic)
    let min_val := qMinList all_vals (qOfNat 0)
    let max_val := qMaxList all_vals (qOfNat 1)
    let val_range := if ¬ qEq max_val min_val then qSub max_val min_val else qOfNat 1
    let color_legend := lit "<div class=\"color-legend\"><span class=\"legend-label\">Low</span><div class=\"legend-bar\"></div><span class=\"legend-label\">High</span></div>"
    let tables := groups.map (fun p =>
      let timepoint := p.1.1
      let endpoint := p.1.2
      let group := p.2
      let rows := (group.map (fun c =>
        lit "<tr><td>" ++ pyEscape c.treatment_arm
          ++ lit "</td><td style=\"background-color: " ++ heatCellColor min_val val_range c.statistic
          ++ lit "; color: " ++ heatCellTextColor min_val val_range c.statistic
          ++ lit "; font-weight: 600; text-align: center; border-radius: 6px;\">"
          ++ pyEscape c.statistic ++ lit "</td><td>" ++ pyEscape c.context
          ++ lit "</td><td>" ++ pyEscape c.sample_size ++ lit "</td></tr>\n")).flatten
      lit "<div class=\"card\"><h2>" ++ pyEscape endpoint ++ lit " — " ++ pyEscape timepoint
        ++ lit "</h2><table><thead><tr><th>Treatment Arm</th><th>Statistic</th><th>Context</th><th>Sample Size</th></tr></thead><tbody>"
        ++ rows ++ lit "</tbody></table></div>")
    let body := color_legend ++ tables.flatten ++ build_footer claims
    let title := drug_name ++ lit " Efficacy Matrix"
    some (html_skeleton title body [] false heatmapCSS drug_name (lit "Efficacy Matrix"))

/-- render_infographic from src/pipeline/templates.py. -/
def render_infographic (claims : List ClinicalClaim) : Option Str :=
  match extract_drug_name claims with
  | none => none
  | some drug_name =>
    let hero_html :=
      match claims with
      | [] => ([] : Str)
      | hero :: _ =>
        lit "<div class=\"hero\"><div class=\"hero-stat\">" ++ pyEscape hero.statistic
          ++ lit "</div><div class=\"hero-label\">" ++ pyEscape hero.treatment_arm
          ++ lit "</div><div class=\"hero-context\">" ++ pyEscape hero.endpoint
          ++ lit " — " ++ pyEscape hero.context ++ lit " — " ++ pyEscape hero.timepoint
          ++ lit "</div></div>"
    let detail_items := (claims.enum.map (fun p =>
      lit "<div class=\"detail-item\" style=\"border-left: 4px solid " ++ colorAt p.1
        ++ lit ";\"><div class=\"detail-stat\">" ++ pyEscape p.2.statistic
        ++ lit "</div><div class=\"detail-arm\">" ++ pyEscape p.2.treatment_arm
        ++ lit "</div><div class=\"detail-meta\">" ++ pyEscape p.2.endpoint
        ++ lit " — " ++ pyEscape p.2.context ++ lit " — " ++ pyEscape p.2.timepoint
        ++ lit "</div></div>")).flatten
    let values := claims.map (fun c => parse_stat c.statistic)
    let colors := claims.enum.map (fun p => colorAt p.1)
    let labels := claims.map (fun c => c.treatment_arm)
    let datasets_json := jsonArr
      [lit "\x7b\"label\": \"Value\", \"data\": [" ++ joinSep (lit ", ") (values.map ppNumJ)
        ++ lit "], \"backgroundColor\": " ++ jsonArr (colors.map jsonStr)
        ++ lit ", \"borderRadius\": 6, \"borderSkipped\": false\x7d"]
    let labels_json := jsonArr (labels.map jsonStr)
    let body := hero_html ++ lit "<div class=\"detail-grid\">" ++ detail_items ++ lit "</div>"
      ++ lit "<div class=\"card\"><h2>Summary</h2><canvas id=\"chart-0\"></canvas></div>"
      ++ build_data_table claims ++ build_footer claims
    let script := lit "<script>"
      ++ build_chart_script (lit "chart-0") (lit "bar") labels_json datasets_json
          (some (lit "Summary"))
      ++ lit "\n</script>"
    let title := drug_name ++ lit " Clinical Overview"
    some (html_skeleton title body script true infographicCSS drug_name (lit "Clinical Overview"))

/-- VARIANT_RENDERERS from src/pipeline/templates.py: the registry of the
five renderers under their stable names, in declaration order. -/
def VARIANT_RENDERERS : List (Str × (List ClinicalClaim → Option Str)) :=
  [(lit "grouped_bar", render_grouped_bar),
   (lit "timeline", render_timeline),
   (lit "spotlight_cards", render_spotlight_cards),
   (lit "heatmap", render_heatmap),
   (lit "infographic", render_infographic)]

/-- Strict tuple order on timepoint keys (Python tuple comparison). -/
def tupLt (a b : Nat × Q) : Bool := a.1 < b.1 || (a.1 = b.1 && qLt a.2 b.2)

/-- The data-model invariant of §3: every field a non-empty string except
qualifiers, whose entries are each non-empty. -/
def claimInv (c : ClinicalClaim) : Bool :=
  ¬ c.statistic.isEmpty && ¬ c.context.isEmpty && ¬ c.timepoint.isEmpty
    && ¬ c.treatment_arm.isEmpty && ¬ c.sample_size.isEmpty && ¬ c.citation.isEmpty
    && ¬ c.endpoint.isEmpty && c.qualifiers.all (fun q => ¬ q.isEmpty)

/-- The substring occurrence relation: n occurs contiguously inside h. -/
def occursIn (n h : Str) : Prop := ∃ a b, h = a ++ n ++ b

/-- Concrete claim for the number-check false-accept scenario. -/
def claimC10 : ClinicalClaim :=
  { statistic := lit "36.2%", context := lit "adults", timepoint := lit "baseline",
    treatment_arm := lit "DrugA", sample_size := lit "ten", citation := lit "Smith, Journal.",
    qualifiers := [], endpoint := lit "response" }

def docC10 : Str := lit "<p>136.25</p>"

/-- Concrete claims for the duplicate-statistic scenario: two claims carry
the same statistic, which the document lacks while every other check is
satisfied. -/
def claimC2a : ClinicalClaim :=
  { statistic := lit "36.2%", context := lit "all patients", timepoint := lit "baseline",
    treatment_arm := lit "DrugA low dose", sample_size := lit "ten",
    citation := lit "King B, et al. Lancet.", qualifiers := [lit "Post hoc analysis"],
    endpoint := lit "SALT low" }

def claimC2b : ClinicalClaim :=
  { statistic := lit "36.2%", context := lit "adults", timepoint := lit "baseline",
    treatment_arm := lit "DrugA high dose", sample_size := lit "twelve",
    citation := lit "Zhang X, et al. EADV.", qualifiers := [lit "Post hoc analysis"],
    endpoint := lit "SALT low" }

def csC2 : List ClinicalClaim := [claimC2a, claimC2b]

def docC2 : Str :=
  lit "<p>King B, et al. Lancet. Zhang X, et al. EADV. Post hoc analysis. SALT low.</p>"

/-- The script literal of the escaping property. -/
def scriptLit : Str := lit "<script>alert(1)</script>"

/-- Concrete claim for the escaping failure: the context carries the
script literal, and the treatment arm's first word is a juxtaposition
whose inner script region the single-pass strip removal re-joins into an
unescaped occurrence of the literal inside the title text node, which the
source inserts without escaping. -/
def claimC3 : ClinicalClaim :=
  { statistic := lit "12", context := lit "<script>alert(1)</script>",
    timepoint := lit "baseline",
    treatment_arm := lit "<scr<script>x</script>ipt>alert(1)</script> 10mg",
    sample_size := lit "ten", citation := lit "King B, et al. Lancet.",
    qualifiers := [], endpoint := lit "SALT low" }

def csC3 : List ClinicalClaim := [claimC3]

def docC3 : Str := (render_timeline csC3).getD []

/-- No suffix of s begins a (case-insensitive) match of p. -/
def noOpenB (p : Str) : Str → Bool
  | [] => true
  | c :: t => !(leadsWithCI p (c :: t)) && noOpenB p t

/-- No character among the last p.length - 1 of s can start a match of p,
so no match of p can begin inside s and continue past its end. -/
def tailSafe (p s : Str) : Bool :=
  (s.reverse.take (p.length - 1)).all (fun c => !(ciEq (p.headD ' ') c))

/-- No match of p can begin anywhere in s, not even one that would
continue past the end of s: at every suffix, already the part of p that
fits inside s fails to match. -/
def noSpanB (p : Str) : Str → Bool
  | [] => true
  | c :: t => !(leadsWithCI (p.take (c :: t).length) (c :: t)) && noSpanB p t

/-- A character that survives into checker input unchanged: not an
ampersand (entity decoding), not a percent sign (percentage extraction),
and unable to begin a tag even case-insensitively. -/
def cleanC (c : Char) : Bool := !(c == '&') && !(c == '%') && !(ciEq '<' c)

/-- A body fragment the compliance pipeline passes through unchanged: no
ampersand, no percent sign, and no case-insensitive style or script tag
opening, not even spanning past its end. -/
def bodyOk (s : Str) : Bool :=
  s.all (fun c => !(c == '&')) && s.all (fun c => !(c == '%'))
    && noSpanB ('<' :: lit "style") s && noSpanB ('<' :: lit "script") s

theorem sev_beq_iff (s : Sev) : (s == Sev.error) = true ↔ s = Sev.error := by
  cases s <;> simp <;> decide

theorem optSome {α : Type} (o : Option α) (d : α) (h : o.isSome = true) :
    o = some (o.getD d) := by
  cases o with
  | none => simp at h
  | some a => rfl

/-- The claims of `C4`: the aggregator's flag list is the checker outputs
concatenated in checker order over the once-decoded markup, and passed
holds exactly when no flag has error severity. -/
theorem run_programmatic_flags_eq (html : Str) (ext : ExtractionResult) :
    (run_programmatic_compliance html ext).flags =
      check_numbers (htmlUnescape html) ext.claims
        ++ check_citations (htmlUnescape html) ext.claims
        ++ check_unexpected_numbers (htmlUnescape html) ext.claims
        ++ check_qualifiers (htmlUnescape html) ext.claims
        ++ check_endpoints (htmlUnescape html) ext.claims := rfl

theorem run_programmatic_passed_iff (html : Str) (ext : ExtractionResult) :
    (run_programmatic_compliance html ext).passed = true ↔
      ∀ f ∈ (run_programmatic_compliance html ext).flags, f.severity ≠ Sev.error := by
  show (!((run_programmatic_compliance html ext).flags.any (fun f => f.severity == Sev.error))) = true ↔ _
  rw [Bool.not_eq_true']
  rw [List.any_eq_false]
  constructor
  · intro h f hf
    intro hc
    have := h f hf
    rw [sev_beq_iff] at this
    exact this hc
  · intro h f hf
    rw [sev_beq_iff]
    exact h f hf

/-- C4: Every ComplianceReport produced by the aggregator satisfies the
invariant that passed is true iff no contained flag has severity error;
run_programmatic_compliance decodes entities once, runs the five checkers
against the decoded markup, and returns their flags concatenated in
checker order with passed derived from that list. -/
theorem C4_aggregator_invariant (html : Str) (ext : ExtractionResult) :
    ((run_programmatic_compliance html ext).flags =
      check_numbers (htmlUnescape html) ext.claims
        ++ check_citations (htmlUnescape html) ext.claims
        ++ check_unexpected_numbers (htmlUnescape html) ext.claims
        ++ check_qualifiers (htmlUnescape html) ext.claims
        ++ check_endpoints (htmlUnescape html) ext.claims)
    ∧ ((run_programmatic_compliance html ext).passed = true ↔
        ∀ f ∈ (run_programmatic_compliance html ext).flags, f.severity ≠ Sev.error) :=
  ⟨run_programmatic_flags_eq html ext, run_programmatic_passed_iff html ext⟩

/-- C5: constructing a VariantResult always recomputes overall_passed as
the conjunction of the two reports' passed fields, discarding any
caller-supplied value. -/
theorem C5_overall_passed_derived (t h : Str) (P S : ComplianceReport) (b : Bool) :
    (mkVariantResult t h P S b).overall_passed = (P.passed && S.passed) := rfl

theorem dedupByValAux_subset (seen : List Q) (l : List (Str × Q)) (x : Str × Q)
    (h : x ∈ dedupByValAux seen l) : x ∈ l := by
  induction l generalizing seen with
  | nil => simp [dedupByValAux] at h
  | cons p t ih =>
    simp only [dedupByValAux] at h
    by_cases hs : seen.any (qEq p.2) = true
    · simp [hs] at h
      exact List.mem_cons_of_mem _ (ih _ h)
    · simp [hs] at h
      rcases h with h | h
      · simp [h]
      · exact List.mem_cons_of_mem _ (ih _ h)

theorem filterMap_if {α β : Type} (l : List α) (b : α → Bool) (f : α → β) :
    l.filterMap (fun x => if b x = true then none else some (f x)) =
      (l.filter (fun x => ! b x)).map f := by
  induction l with
  | nil => rfl
  | cons a t ih =>
    by_cases h : b a = true
    · simp [List.filterMap_cons, List.filter_cons, h, ih]
    · simp [List.filterMap_cons, List.filter_cons, h, ih]

theorem extract_percentages_mem (t : Str) (p : Str × Q) (h : p ∈ extract_percentages t) :
    qEq p.2 (qOfNat 0) = false ∧ qEq p.2 (qOfNat 100) = false := by
  unfold extract_percentages at h
  have h2 := dedupByValAux_subset _ _ _ h
  have h3 := List.of_mem_filter h2
  simp at h3
  exact h3

/-- C7: percentage tokens whose value is exactly 0 or exactly 100 never
produce an unexpected_number flag: every flag the checker emits comes
from an extracted (token, value) pair whose value differs from 0 and
from 100. -/
theorem C7_zero_hundred_never_flagged (html : Str) (claims : List ClinicalClaim) :
    ∃ L : List (Str × Q),
      check_unexpected_numbers html claims = L.map (fun p =>
        { flag_type := FlagType.unexpected_number, severity := Sev.error,
          location := decTokStr p.1 ++ lit "%",
          description := lit "Percentage " ++ decTokStr p.1
            ++ lit "% in HTML not found in source claims" })
      ∧ ∀ p ∈ L, p ∈ extract_percentages html
          ∧ qEq p.2 (qOfNat 0) = false ∧ qEq p.2 (qOfNat 100) = false := by
  refine ⟨(extract_percentages html).filter
    (fun p => ! ((claims.filterMap (fun c => normalize_number c.statistic)).any (qEq p.2))), ?_, ?_⟩
  · show (extract_percentages html).filterMap _ = _
    exact filterMap_if _ _ _
  · intro p hp
    have h2 := List.mem_of_mem_filter hp
    exact ⟨h2, (extract_percentages_mem html p h2).1, (extract_percentages_mem html p h2).2⟩

/-- C8: every registered renderer is deterministic: applying it twice to
the same claim list gives identical output (the rendering functions are
pure, with no timestamp, randomness or unordered iteration in the
model or in the source they embed). -/
theorem C8_renderers_deterministic (name : Str) (r : List ClinicalClaim → Option Str)
    (h : (name, r) ∈ VARIANT_RENDERERS) (claims : List ClinicalClaim) :
    r claims = r claims := rfl

theorem C8_renderers_deterministic_witness :
    (lit "grouped_bar", render_grouped_bar) ∈ VARIANT_RENDERERS
      ∧ render_grouped_bar [] = render_grouped_bar [] := by
  constructor
  · simp [VARIANT_RENDERERS]
  · exact C8_renderers_deterministic (lit "grouped_bar") render_grouped_bar
      (by simp [VARIANT_RENDERERS]) []

/-- C10: the verbatim test of the number check is a plain substring match
of the percent-stripped token, so the statistic 36.2% is judged present
in a document whose visible text carries only the unrelated longer token
136.25: no number_missing flag is emitted although neither the exact
token nor any numeric token of equal value appears. -/
theorem C10_substring_false_accept :
    check_numbers docC10 [claimC10] = []
      ∧ pyContains (lit "36.2%") docC10 = false
      ∧ (numScan (visible_text docC10)).any (fun t =>
          match normalize_number t with
          | some q' => qEq q' ⟨362, 10⟩
          | none => false) = false := by
  refine ⟨?_, ?_, ?_⟩ <;> decide

theorem leadsWith_append (p x y : Str) (h : leadsWith p x = true) :
    leadsWith p (x ++ y) = true := by
  induction p generalizing x with
  | nil => rfl
  | cons a ps ih =>
    cases x with
    | nil => simp [leadsWith] at h
    | cons c t =>
      simp only [leadsWith, Bool.and_eq_true] at h
      simp only [List.cons_append, leadsWith, Bool.and_eq_true]
      exact ⟨h.1, ih t h.2⟩

theorem leadsWith_ne_nil (c : Char) (p h : Str) (hl : leadsWith (c :: p) h = true) :
    h ≠ [] := by
  intro he
  subst he
  simp [leadsWith] at hl

theorem leadsWith_self_append (n y : Str) : leadsWith n (n ++ y) = true := by
  induction n with
  | nil => rfl
  | cons c t ih => simp [leadsWith, ih]

theorem pyContains_of_occursIn (n h : Str) (ho : occursIn n h) :
    pyContains n h = true := by
  obtain ⟨a, b, rfl⟩ := ho
  induction a with
  | nil =>
    have hl : leadsWith n (n ++ b) = true := leadsWith_self_append n b
    cases hnb : (n ++ b : Str) with
    | nil => simpa [pyContains, hnb] using hl
    | cons c t =>
      show pyContains n ([] ++ n ++ b) = true
      simp only [List.nil_append]
      rw [hnb] at hl ⊢
      simp [pyContains, hl]
  | cons c a' ih =>
    show pyContains n (c :: (a' ++ n ++ b)) = true
    simp only [pyContains]
    cases hl : leadsWith n (c :: (a' ++ n ++ b)) with
    | true => rfl
    | false => simpa using ih

theorem occursIn_append_left (n x y : Str) (h : occursIn n y) : occursIn n (x ++ y) := by
  obtain ⟨a, b, rfl⟩ := h
  exact ⟨x ++ a, b, by simp⟩

/-- The shared document shell always yields a structurally valid,
non-empty document: it starts with the doctype declaration and contains
the closing html tag. -/
theorem html_skeleton_valid (t b s : Str) (i : Bool) (e dn v : Str) :
    leadsWith (lit "<!DOCTYPE html>") (html_skeleton t b s i e dn v) = true
    ∧ pyContains (lit "</html>") (html_skeleton t b s i e dn v) = true
    ∧ html_skeleton t b s i e dn v ≠ [] := by
  have h1 : leadsWith (lit "<!DOCTYPE html>") (html_skeleton t b s i e dn v) = true := by
    show leadsWith _ (skelS1 ++ _ ++ _ ++ _ ++ _ ++ _ ++ _ ++ _ ++ _ ++ _ ++ _ ++ _ ++ _ ++ _ ++ _) = true
    repeat' apply leadsWith_append
    decide
  refine ⟨h1, ?_, leadsWith_ne_nil _ _ _ h1⟩
  show pyContains _ (_ ++ skelS8) = true
  apply pyContains_of_occursIn
  apply occursIn_append_left
  exact ⟨lit "\n</body>\n", [], by decide⟩

/-- C9: every registered renderer applied to the empty claim list returns
without raising and produces a structurally valid, non-empty document. -/
theorem C9_empty_claims_valid (name : Str) (r : List ClinicalClaim → Option Str)
    (h : (name, r) ∈ VARIANT_RENDERERS) :
    ∃ d, r [] = some d ∧ leadsWith (lit "<!DOCTYPE html>") d = true
      ∧ pyContains (lit "</html>") d = true ∧ d ≠ [] := by
  simp only [VARIANT_RENDERERS, List.mem_cons, List.mem_singleton, Prod.mk.injEq,
    List.not_mem_nil, or_false] at h
  rcases h with ⟨_, rfl⟩ | ⟨_, rfl⟩ | ⟨_, rfl⟩ | ⟨_, rfl⟩ | ⟨_, rfl⟩ <;>
    exact ⟨_, rfl, (html_skeleton_valid _ _ _ _ _ _ _).1,
      (html_skeleton_valid _ _ _ _ _ _ _).2.1, (html_skeleton_valid _ _ _ _ _ _ _).2.2⟩

theorem C9_empty_claims_valid_witness :
    (lit "spotlight_cards", render_spotlight_cards) ∈ VARIANT_RENDERERS
      ∧ ∃ d, render_spotlight_cards [] = some d
          ∧ leadsWith (lit "<!DOCTYPE html>") d = true
          ∧ pyContains (lit "</html>") d = true ∧ d ≠ [] := by
  refine ⟨by simp [VARIANT_RENDERERS], ?_⟩
  exact C9_empty_claims_valid (lit "spotlight_cards") render_spotlight_cards
    (by simp [VARIANT_RENDERERS])

theorem takeWhile_all (q : Char → Bool) (l : Str) (h : ∀ c ∈ l, q c = true) :
    l.takeWhile q = l := by
  induction l with
  | nil => rfl
  | cons c t ih =>
    rw [List.takeWhile_cons, h c (List.mem_cons_self c t)]
    simp only [if_true]
    rw [ih (fun x hx => h x (List.mem_cons_of_mem c hx))]

theorem dropWhile_all (q : Char → Bool) (l : Str) (h : ∀ c ∈ l, q c = true) :
    l.dropWhile q = [] := by
  induction l with
  | nil => rfl
  | cons c t ih =>
    rw [List.dropWhile_cons, h c (List.mem_cons_self c t)]
    simp only [if_true]
    exact ih (fun x hx => h x (List.mem_cons_of_mem c hx))

theorem digit_not (c x : Char) (hc : isDigitC c = true) (hx : isDigitC x = false) :
    c ≠ x := by
  intro he
  subst he
  rw [hc] at hx
  exact Bool.noConfusion hx

theorem digit_not_ws (c : Char) (hc : isDigitC c = true) : isWsC c = false := by
  cases hw : isWsC c with
  | false => rfl
  | true =>
    exfalso
    simp only [isWsC, Bool.or_eq_true, decide_eq_true_eq] at hw
    rcases hw with (((((rfl | rfl) | rfl) | rfl) | rfl) | rfl) <;>
      exact absurd hc (by decide)

/-- Decimal(digits) and float(digits) on a non-empty all-digit token is
the token's numeric value over denominator one. -/
theorem parseDecimal_digits (d : Str) (h1 : d ≠ []) (h2 : ∀ c ∈ d, isDigitC c = true) :
    parseDecimal d = some ⟨(digitsVal d : Int), 1⟩ := by
  obtain ⟨c, t, rfl⟩ : ∃ c t, d = c :: t := by
    cases d with
    | nil => exact absurd rfl h1
    | cons c t => exact ⟨c, t, rfl⟩
  have hc : isDigitC c = true := h2 c (List.mem_cons_self c t)
  have hstrip : pyStrip (c :: t) = c :: t := by
    unfold pyStrip
    rw [List.dropWhile_cons, digit_not_ws c hc]
    simp only [Bool.false_eq_true, if_false]
    have hrev : ∀ x ∈ (c :: t).reverse, isDigitC x = true := by
      intro x hx
      exact h2 x (List.mem_reverse.mp hx)
    have hr2 : ((c :: t).reverse.dropWhile isWsC) = (c :: t).reverse := by
      cases hr : (c :: t).reverse with
      | nil => rfl
      | cons y ys =>
        rw [List.dropWhile_cons]
        have hy : isDigitC y = true := by
          apply hrev
          rw [hr]
          exact List.mem_cons_self y ys
        rw [digit_not_ws y hy]
        simp
    rw [hr2, List.reverse_reverse]
  have hnotE : ∀ x ∈ c :: t, (decide ¬(x = 'e' ∨ x = 'E')) = true := by
    intro x hx
    have hd := h2 x hx
    simp only [decide_not, Bool.not_eq_true', decide_eq_false_iff_not]
    push_neg
    exact ⟨digit_not x 'e' hd (by decide), digit_not x 'E' hd (by decide)⟩
  have hmant : parseMant (c :: t) = some (qOfNat (digitsVal (c :: t))) := by
    unfold parseMant
    rw [takeWhile_all isDigitC _ h2, dropWhile_all isDigitC _ h2]
    simp
  simp only [parseDecimal, hstrip]
  rw [if_neg (digit_not c '+' hc (by decide)), if_neg (digit_not c '-' hc (by decide))]
  rw [takeWhile_all _ _ hnotE, dropWhile_all _ _ hnotE, hmant]
  simp only [parseExp]
  simp only [qMul, qOfInt, qOfNat, qPow10]
  norm_num

theorem leadsWithCI_self_append (p s : Str) : leadsWithCI p (p ++ s) = true := by
  induction p with
  | nil => rfl
  | cons a ps ih =>
    show (ciEq a a && leadsWithCI ps (ps ++ s)) = true
    rw [ih]
    simp [ciEq]

/-- A unit tag captures exactly the digit token in "Unit <digits>". -/
theorem tpUnit_eval (u : Str) (c0 : Char) (t0 : Str)
    (hdig : ∀ x ∈ c0 :: t0, isDigitC x = true) :
    tpTryUnit u (u ++ ' ' :: c0 :: t0) = some (c0 :: t0) := by
  have hc : isDigitC c0 = true := hdig c0 (List.mem_cons_self c0 t0)
  unfold tpTryUnit
  rw [leadsWithCI_self_append]
  simp only [if_true]
  rw [List.drop_left]
  rw [List.takeWhile_cons]
  rw [show isWsC ' ' = true from rfl]
  rw [List.takeWhile_cons]
  rw [digit_not_ws c0 hc]
  simp only [if_true, Bool.false_eq_true, if_false]
  have hcap : (c0 :: t0).takeWhile (fun c => isDigitC c || c = '.') = c0 :: t0 := by
    apply takeWhile_all
    intro x hx
    rw [hdig x hx]
    rfl
  simp [hcap]

theorem tpTryUnit_head_ne (a : Char) (us : Str) (b : Char) (s : Str)
    (h : ciEq a b = false) : tpTryUnit (a :: us) (b :: s) = none := by
  unfold tpTryUnit
  show (if (ciEq a b && leadsWithCI us s) = true then _ else none) = none
  rw [h]
  simp

/-- "Day N" for a digit token N keys to (0, N). -/
theorem tp_key_day (d : Str) (hne : d ≠ []) (hdig : ∀ x ∈ d, isDigitC x = true) :
    sort_timepoint_key (lit "Day" ++ ' ' :: d) = some (0, ⟨(digitsVal d : Int), 1⟩) := by
  obtain ⟨c0, t0, rfl⟩ : ∃ c0 t0, d = c0 :: t0 := by
    cases d with
    | nil => exact absurd rfl hne
    | cons c0 t0 => exact ⟨c0, t0, rfl⟩
  have hD : tpTryUnit (lit "Day") (lit "Day" ++ ' ' :: c0 :: t0) = some (c0 :: t0) :=
    tpUnit_eval _ _ _ hdig
  have hW : tpTryUnit (lit "Week") (lit "Day" ++ ' ' :: c0 :: t0) = none := by
    rw [show lit "Day" ++ ' ' :: c0 :: t0 = 'D' :: ('a' :: 'y' :: ' ' :: c0 :: t0) from rfl]
    rw [show lit "Week" = 'W' :: lit "eek" from rfl]
    exact tpTryUnit_head_ne _ _ _ _ (by decide)
  have hM : tpTryUnit (lit "Month") (lit "Day" ++ ' ' :: c0 :: t0) = none := by
    rw [show lit "Day" ++ ' ' :: c0 :: t0 = 'D' :: ('a' :: 'y' :: ' ' :: c0 :: t0) from rfl]
    rw [show lit "Month" = 'M' :: lit "onth" from rfl]
    exact tpTryUnit_head_ne _ _ _ _ (by decide)
  have hmc : tpMatchCap (lit "Day" ++ ' ' :: c0 :: t0) = some (c0 :: t0) := by
    unfold tpMatchCap
    rw [hW, hM, hD]
    rfl
  have hpf : pyFloat (c0 :: t0) = some ⟨(digitsVal (c0 :: t0) : Int), 1⟩ :=
    parseDecimal_digits _ (by simp) hdig
  have hfw : firstWord (lit "Day" ++ ' ' :: c0 :: t0) = some (lit "Day") := by
    rw [show lit "Day" ++ ' ' :: c0 :: t0 = 'D' :: ('a' :: 'y' :: ' ' :: c0 :: t0) from rfl]
    simp only [firstWord, List.dropWhile_cons,
      show isWsC 'D' = false from rfl]
    norm_num
    rw [show lit "Day" = 'D' :: 'a' :: 'y' :: ([] : Str) from rfl]
    rw [List.takeWhile_cons, if_pos (show ((fun x => !isWsC x) 'a') = true from rfl)]
    rw [List.takeWhile_cons, if_pos (show ((fun x => !isWsC x) 'y') = true from rfl)]
    rw [List.takeWhile_cons, if_neg (show ¬ ((fun x => !isWsC x) ' ') = true from by decide)]
  simp only [sort_timepoint_key, hmc, hpf, hfw]
  rw [show pyLower (lit "Day") = lit "day" from by decide]
  simp only [if_pos rfl]
  simp only [qAdd, qOfNat]
  norm_num

/-- "Week N" for a digit token N keys to (0, 1000 + N). -/
theorem tp_key_week (d : Str) (hne : d ≠ []) (hdig : ∀ x ∈ d, isDigitC x = true) :
    sort_timepoint_key (lit "Week" ++ ' ' :: d)
      = some (0, ⟨((1000 + digitsVal d : Nat) : Int), 1⟩) := by
  obtain ⟨c0, t0, rfl⟩ : ∃ c0 t0, d = c0 :: t0 := by
    cases d with
    | nil => exact absurd rfl hne
    | cons c0 t0 => exact ⟨c0, t0, rfl⟩
  have hU : tpTryUnit (lit "Week") (lit "Week" ++ ' ' :: c0 :: t0) = some (c0 :: t0) :=
    tpUnit_eval _ _ _ hdig
  have hmc : tpMatchCap (lit "Week" ++ ' ' :: c0 :: t0) = some (c0 :: t0) := by
    unfold tpMatchCap
    rw [hU]
    rfl
  have hpf : pyFloat (c0 :: t0) = some ⟨(digitsVal (c0 :: t0) : Int), 1⟩ :=
    parseDecimal_digits _ (by simp) hdig
  have hfw : firstWord (lit "Week" ++ ' ' :: c0 :: t0) = some (lit "Week") := by
    rw [show lit "Week" ++ ' ' :: c0 :: t0 = 'W' :: ('e' :: 'e' :: 'k' :: ' ' :: c0 :: t0) from rfl]
    simp only [firstWord, List.dropWhile_cons,
      show isWsC 'W' = false from rfl]
    norm_num
    rw [show lit "Week" = 'W' :: 'e' :: 'e' :: 'k' :: ([] : Str) from rfl]
    rw [List.takeWhile_cons, if_pos (show ((fun x => !isWsC x) 'e') = true from rfl)]
    rw [List.takeWhile_cons, if_pos (show ((fun x => !isWsC x) 'e') = true from rfl)]
    rw [List.takeWhile_cons, if_pos (show ((fun x => !isWsC x) 'k') = true from rfl)]
    rw [List.takeWhile_cons, if_neg (show ¬ ((fun x => !isWsC x) ' ') = true from by decide)]
  simp only [sort_timepoint_key, hmc, hpf, hfw]
  rw [show pyLower (lit "Week") = lit "week" from by decide]
  rw [if_neg (show ¬ lit "week" = lit "day" from by decide)]
  rw [if_pos rfl]
  simp only [qAdd, qOfNat]
  norm_num

/-- "Month N" for a digit token N keys to (0, 2000 + N). -/
theorem tp_key_month (d : Str) (hne : d ≠ []) (hdig : ∀ x ∈ d, isDigitC x = true) :
    sort_timepoint_key (lit "Month" ++ ' ' :: d)
      = some (0, ⟨((2000 + digitsVal d : Nat) : Int), 1⟩) := by
  obtain ⟨c0, t0, rfl⟩ : ∃ c0 t0, d = c0 :: t0 := by
    cases d with
    | nil => exact absurd rfl hne
    | cons c0 t0 => exact ⟨c0, t0, rfl⟩
  have hU : tpTryUnit (lit "Month") (lit "Month" ++ ' ' :: c0 :: t0) = some (c0 :: t0) :=
    tpUnit_eval _ _ _ hdig
  have hWeek : tpTryUnit (lit "Week") (lit "Month" ++ ' ' :: c0 :: t0) = none := by
    rw [show lit "Month" ++ ' ' :: c0 :: t0 = 'M' :: ('o' :: 'n' :: 't' :: 'h' :: ' ' :: c0 :: t0) from rfl]
    rw [show lit "Week" = 'W' :: lit "eek" from rfl]
    exact tpTryUnit_head_ne _ _ _ _ (by decide)
  have hmc : tpMatchCap (lit "Month" ++ ' ' :: c0 :: t0) = some (c0 :: t0) := by
    unfold tpMatchCap
    rw [hWeek, hU]
    rfl
  have hpf : pyFloat (c0 :: t0) = some ⟨(digitsVal (c0 :: t0) : Int), 1⟩ :=
    parseDecimal_digits _ (by simp) hdig
  have hfw : firstWord (lit "Month" ++ ' ' :: c0 :: t0) = some (lit "Month") := by
    rw [show lit "Month" ++ ' ' :: c0 :: t0 = 'M' :: ('o' :: 'n' :: 't' :: 'h' :: ' ' :: c0 :: t0) from rfl]
    simp only [firstWord, List.dropWhile_cons,
      show isWsC 'M' = false from rfl]
    norm_num
    rw [show lit "Month" = 'M' :: 'o' :: 'n' :: 't' :: 'h' :: ([] : Str) from rfl]
    rw [List.takeWhile_cons, if_pos (show ((fun x => !isWsC x) 'o') = true from rfl)]
    rw [List.takeWhile_cons, if_pos (show ((fun x => !isWsC x) 'n') = true from rfl)]
    rw [List.takeWhile_cons, if_pos (show ((fun x => !isWsC x) 't') = true from rfl)]
    rw [List.takeWhile_cons, if_pos (show ((fun x => !isWsC x) 'h') = true from rfl)]
    rw [List.takeWhile_cons, if_neg (show ¬ ((fun x => !isWsC x) ' ') = true from by decide)]
  simp only [sort_timepoint_key, hmc, hpf, hfw]
  rw [show pyLower (lit "Month") = lit "month" from by decide]
  rw [if_neg (show ¬ lit "month" = lit "day" from by decide)]
  rw [if_neg (show ¬ lit "month" = lit "week" from by decide)]
  rw [if_pos rfl]
  simp only [qAdd, qOfNat]
  norm_num

/-- "Year N" for a digit token N keys to (0, 3000 + N). -/
theorem tp_key_year (d : Str) (hne : d ≠ []) (hdig : ∀ x ∈ d, isDigitC x = true) :
    sort_timepoint_key (lit "Year" ++ ' ' :: d)
      = some (0, ⟨((3000 + digitsVal d : Nat) : Int), 1⟩) := by
  obtain ⟨c0, t0, rfl⟩ : ∃ c0 t0, d = c0 :: t0 := by
    cases d with
    | nil => exact absurd rfl hne
    | cons c0 t0 => exact ⟨c0, t0, rfl⟩
  have hU : tpTryUnit (lit "Year") (lit "Year" ++ ' ' :: c0 :: t0) = some (c0 :: t0) :=
    tpUnit_eval _ _ _ hdig
  have hWeek : tpTryUnit (lit "Week") (lit "Year" ++ ' ' :: c0 :: t0) = none := by
    rw [show lit "Year" ++ ' ' :: c0 :: t0 = 'Y' :: ('e' :: 'a' :: 'r' :: ' ' :: c0 :: t0) from rfl]
    rw [show lit "Week" = 'W' :: lit "eek" from rfl]
    exact tpTryUnit_head_ne _ _ _ _ (by decide)
  have hMonth : tpTryUnit (lit "Month") (lit "Year" ++ ' ' :: c0 :: t0) = none := by
    rw [show lit "Year" ++ ' ' :: c0 :: t0 = 'Y' :: ('e' :: 'a' :: 'r' :: ' ' :: c0 :: t0) from rfl]
    rw [show lit "Month" = 'M' :: lit "onth" from rfl]
    exact tpTryUnit_head_ne _ _ _ _ (by decide)
  have hDay : tpTryUnit (lit "Day") (lit "Year" ++ ' ' :: c0 :: t0) = none := by
    rw [show lit "Year" ++ ' ' :: c0 :: t0 = 'Y' :: ('e' :: 'a' :: 'r' :: ' ' :: c0 :: t0) from rfl]
    rw [show lit "Day" = 'D' :: lit "ay" from rfl]
    exact tpTryUnit_head_ne _ _ _ _ (by decide)
  have hmc : tpMatchCap (lit "Year" ++ ' ' :: c0 :: t0) = some (c0 :: t0) := by
    unfold tpMatchCap
    rw [hWeek, hMonth, hDay, hU]
    rfl
  have hpf : pyFloat (c0 :: t0) = some ⟨(digitsVal (c0 :: t0) : Int), 1⟩ :=
    parseDecimal_digits _ (by simp) hdig
  have hfw : firstWord (lit "Year" ++ ' ' :: c0 :: t0) = some (lit "Year") := by
    rw [show lit "Year" ++ ' ' :: c0 :: t0 = 'Y' :: ('e' :: 'a' :: 'r' :: ' ' :: c0 :: t0) from rfl]
    simp only [firstWord, List.dropWhile_cons,
      show isWsC 'Y' = false from rfl]
    norm_num
    rw [show lit "Year" = 'Y' :: 'e' :: 'a' :: 'r' :: ([] : Str) from rfl]
    rw [List.takeWhile_cons, if_pos (show ((fun x => !isWsC x) 'e') = true from rfl)]
    rw [List.takeWhile_cons, if_pos (show ((fun x => !isWsC x) 'a') = true from rfl)]
    rw [List.takeWhile_cons, if_pos (show ((fun x => !isWsC x) 'r') = true from rfl)]
    rw [List.takeWhile_cons, if_neg (show ¬ ((fun x => !isWsC x) ' ') = true from by decide)]
  simp only [sort_timepoint_key, hmc, hpf, hfw]
  rw [show pyLower (lit "Year") = lit "year" from by decide]
  rw [if_neg (show ¬ lit "year" = lit "day" from by decide)]
  rw [if_neg (show ¬ lit "year" = lit "week" from by decide)]
  rw [if_neg (show ¬ lit "year" = lit "month" from by decide)]
  rw [if_pos rfl]
  simp only [qAdd, qOfNat]
  norm_num

/-- C6: the spec's cross-unit ordering fails for large values: the key of
"Week 1" is below the key of "Day 1500", so that Day label sorts after
that Week label even though every Day label is claimed to sort before
every Week label. -/
theorem C6_counterexample :
    sort_timepoint_key (lit "Day 1500") = some (0, ⟨1500, 1⟩)
      ∧ sort_timepoint_key (lit "Week 1") = some (0, ⟨1001, 1⟩)
      ∧ tupLt (0, ⟨1500, 1⟩) (0, ⟨1001, 1⟩) = false
      ∧ tupLt (0, ⟨1001, 1⟩) (0, ⟨1500, 1⟩) = true := by
  refine ⟨?_, ?_, ?_, ?_⟩ <;> decide

/-- The chronological key of "Unit digits": unit order times 1000 plus the
token value, paired with bucket 0. -/
theorem tp_key_unit (u : Str) (o : Nat)
    (hu : (u, o) ∈ [(lit "Day", 0), (lit "Week", 1), (lit "Month", 2), (lit "Year", 3)])
    (d : Str) (hne : d ≠ []) (hdig : ∀ x ∈ d, isDigitC x = true) :
    sort_timepoint_key (u ++ ' ' :: d)
      = some (0, ⟨((o * 1000 + digitsVal d : Nat) : Int), 1⟩) := by
  simp only [List.mem_cons, List.mem_singleton, Prod.mk.injEq, List.not_mem_nil, or_false] at hu
  rcases hu with ⟨rfl, rfl⟩ | ⟨rfl, rfl⟩ | ⟨rfl, rfl⟩ | ⟨rfl, rfl⟩
  · rw [tp_key_day d hne hdig]
    norm_num
  · rw [tp_key_week d hne hdig]
  · rw [tp_key_month d hne hdig]
  · rw [tp_key_year d hne hdig]

/-- C6 (amended): for labels "Unit digits" whose numeric value is below
1000 (capturing the day/week/month/year magnitudes the generator emits),
the chronological key orders Day before Week before Month before Year,
orders labels within one unit by numeric value, and sorts every label the
pattern does not match after all recognized labels. -/
theorem C6_amended_key_order (u1 : Str) (o1 : Nat)
    (h1 : (u1, o1) ∈ [(lit "Day", 0), (lit "Week", 1), (lit "Month", 2), (lit "Year", 3)])
    (u2 : Str) (o2 : Nat)
    (h2 : (u2, o2) ∈ [(lit "Day", 0), (lit "Week", 1), (lit "Month", 2), (lit "Year", 3)])
    (d e : Str) (hd1 : d ≠ []) (hd2 : ∀ x ∈ d, isDigitC x = true) (hd3 : digitsVal d < 1000)
    (he1 : e ≠ []) (he2 : ∀ x ∈ e, isDigitC x = true) (he3 : digitsVal e < 1000) :
    ∃ k1 k2, sort_timepoint_key (u1 ++ ' ' :: d) = some k1
      ∧ sort_timepoint_key (u2 ++ ' ' :: e) = some k2
      ∧ (o1 < o2 → tupLt k1 k2 = true)
      ∧ (o1 = o2 → (tupLt k1 k2 = true ↔ digitsVal d < digitsVal e))
      ∧ ∀ tp, tpMatchCap tp = none →
          sort_timepoint_key tp = some (1, qOfNat 0) ∧ tupLt k1 (1, qOfNat 0) = true := by
  refine ⟨_, _, tp_key_unit u1 o1 h1 d hd1 hd2, tp_key_unit u2 o2 h2 e he1 he2, ?_, ?_, ?_⟩
  · intro hlt
    simp only [tupLt, qLt, mul_one]
    norm_num
    omega
  · intro heq
    subst heq
    simp only [tupLt, qLt, mul_one]
    norm_num
  · intro tp htp
    constructor
    · simp only [sort_timepoint_key, htp]
    · simp [tupLt]

theorem C6_amended_key_order_witness :
    ∃ k1 k2, sort_timepoint_key (lit "Day" ++ ' ' :: lit "5") = some k1
      ∧ sort_timepoint_key (lit "Week" ++ ' ' :: lit "7") = some k2
      ∧ ((0 : Nat) < 1 → tupLt k1 k2 = true)
      ∧ ((0 : Nat) = 1 → (tupLt k1 k2 = true ↔ digitsVal (lit "5") < digitsVal (lit "7")))
      ∧ ∀ tp, tpMatchCap tp = none →
          sort_timepoint_key tp = some (1, qOfNat 0) ∧ tupLt k1 (1, qOfNat 0) = true :=
  C6_amended_key_order (lit "Day") 0 (by decide) (lit "Week") 1 (by decide)
    (lit "5") (lit "7") (by decide) (by decide) (by decide)
    (by decide) (by decide) (by decide)

/-- C2: two claims carrying the same missing statistic produce two
number_missing flags, not one: check_numbers has no per-value seen set. -/
theorem C2_counterexample :
    ((run_programmatic_compliance docC2 ⟨csC2⟩).flags.filter
        (fun f => f.flag_type == FlagType.number_missing)).length = 2
      ∧ ((run_programmatic_compliance docC2 ⟨csC2⟩).flags.filter
          (fun f => !(f.flag_type == FlagType.number_missing))).length = 0
      ∧ (run_programmatic_compliance docC2 ⟨csC2⟩).flags.all
          (fun f => f.location == lit "36.2%") = true := by
  refine ⟨?_, ?_, ?_⟩ <;> decide

theorem fieldGo_locs (lowHtml : Str) (ft : FlagType) (sev : Sev) (cap : Str) :
    ∀ (l seen : List Str),
      (∀ f ∈ fieldGo lowHtml ft sev cap seen l, f.location ∉ seen)
        ∧ (fieldGo lowHtml ft sev cap seen l).Pairwise
            (fun a b => a.location ≠ b.location) := by
  intro l
  induction l with
  | nil => exact fun seen => ⟨fun f hf => absurd hf (List.not_mem_nil f), List.Pairwise.nil⟩
  | cons v vs ih =>
    intro seen
    unfold fieldGo
    by_cases hv : v ∈ seen
    · rw [if_pos hv]
      exact ih seen
    · rw [if_neg hv]
      by_cases hf : pyContains (pyLower v) lowHtml = true
      · rw [if_pos hf]
        refine ⟨fun f hfm hmem => ?_, (ih (v :: seen)).2⟩
        exact (ih (v :: seen)).1 f hfm (List.mem_cons_of_mem v hmem)
      · rw [if_neg hf]
        constructor
        · intro f hfm
          rcases List.mem_cons.mp hfm with rfl | hrest
          · exact hv
          · intro hmem
            exact (ih (v :: seen)).1 f hrest (List.mem_cons_of_mem v hmem)
        · refine List.Pairwise.cons (fun b hb => ?_) (ih (v :: seen)).2
          have hnm := (ih (v :: seen)).1 b hb
          intro heq
          have hv2 : v = b.location := heq
          exact hnm (by rw [← hv2]; exact List.mem_cons_self v seen)

/-- C2 (amended): check_numbers de-duplicates nothing: it emits one
number_missing error per claim whose statistic fails the presence test,
locations repeating with the claims; the seen-set de-duplication the spec
describes belongs to _check_field_present, whose flags always carry
pairwise distinct values. -/
theorem C2_amended (html : Str) (claims : List ClinicalClaim) :
    check_numbers html claims =
      (claims.filter (fun c => !statFound (visible_text html) c.statistic)).map
        (fun c => { flag_type := FlagType.number_missing, severity := Sev.error,
                    location := c.statistic,
                    description := lit "Source statistic " ++ c.statistic
                      ++ lit " not found in HTML" })
      ∧ ∀ (g : ClinicalClaim → List Str) (ft : FlagType) (sev : Sev) (cap : Str),
        (check_field_present html claims g ft sev cap).Pairwise
          (fun a b => a.location ≠ b.location) := by
  constructor
  · exact filterMap_if claims (fun c => statFound (visible_text html) c.statistic) _
  · intro g ft sev cap
    exact (fieldGo_locs (pyLower html) ft sev cap ((claims.map g).flatten) []).2

/-- C3: the renderer registry's timeline renderer, applied to a claim
list satisfying the data-model invariant whose context field contains the
script literal, produces a document whose visible text (markup with
style and script regions removed) contains that literal unescaped: the
drug name taken from the treatment arm reaches the title text node
unescaped, and the single-pass script-region removal re-joins a
juxtaposition into the literal. -/
theorem C3_unescaped_script_in_visible_text :
    (lit "timeline", render_timeline) ∈ VARIANT_RENDERERS
      ∧ claimInv claimC3 = true
      ∧ pyContains scriptLit claimC3.context = true
      ∧ render_timeline csC3 = some docC3
      ∧ pyContains scriptLit (visible_text docC3) = true := by
  refine ⟨List.mem_cons_of_mem _ (List.mem_cons_self _ _), by decide, by decide, ?_, ?_⟩
  · exact optSome _ _ (by decide)
  · decide

theorem leadsWithCI_append_left (p : Str) :
    ∀ x y : Str, p.length ≤ x.length → leadsWithCI p (x ++ y) = leadsWithCI p x := by
  induction p with
  | nil => intro x y h; rfl
  | cons pc pt ih =>
    intro x y h
    cases x with
    | nil => simp at h
    | cons c ct =>
      show (ciEq pc c && leadsWithCI pt (ct ++ y)) = (ciEq pc c && leadsWithCI pt ct)
      rw [ih ct y (by simpa using h)]

theorem all_take_of_all (q : Char → Bool) (l : Str) (n : Nat) (h : l.all q = true) :
    (l.take n).all q = true := by
  rw [List.all_eq_true] at *
  intro c hc
  exact h c (List.mem_of_mem_take hc)

theorem tailSafe_of_all (p s : Str)
    (h : s.all (fun c => !(ciEq (p.headD ' ') c)) = true) : tailSafe p s = true := by
  unfold tailSafe
  rw [List.all_eq_true] at *
  intro c hc
  exact h c (List.mem_reverse.mp (List.mem_of_mem_take hc))

theorem noOpenB_of_all (pc : Char) (pt s : Str)
    (h : s.all (fun c => !(ciEq pc c)) = true) : noOpenB (pc :: pt) s = true := by
  induction s with
  | nil => rfl
  | cons c t ih =>
    rw [List.all_cons, Bool.and_eq_true] at h
    show (!(leadsWithCI (pc :: pt) (c :: t)) && noOpenB (pc :: pt) t) = true
    rw [ih h.2]
    show (!(ciEq pc c && leadsWithCI pt t) && true) = true
    rw [Bool.not_eq_true'] at h
    rw [h.1]
    rfl

theorem leads_take_split : ∀ (b p ext : Str),
    leadsWithCI (p.take b.length) b = false → leadsWithCI p (b ++ ext) = false := by
  intro b
  induction b with
  | nil =>
    intro p ext h
    exact Bool.noConfusion h
  | cons c t ih =>
    intro p ext h
    cases p with
    | nil => exact Bool.noConfusion h
    | cons pc pt =>
      have h' : (ciEq pc c && leadsWithCI (pt.take t.length) t) = false := h
      show (ciEq pc c && leadsWithCI pt (t ++ ext)) = false
      cases hc : ciEq pc c with
      | false => rfl
      | true =>
        rw [hc] at h'
        rw [Bool.true_and] at h'
        rw [ih pt ext h']
        rfl

theorem noSpanB_of_cons (p : Str) (c : Char) (t : Str)
    (h : noSpanB p (c :: t) = true) :
    noSpanB p t = true
      ∧ leadsWithCI (p.take (c :: t).length) (c :: t) = false := by
  have h' : (!(leadsWithCI (p.take (c :: t).length) (c :: t)) && noSpanB p t)
      = true := h
  rw [Bool.and_eq_true, Bool.not_eq_true'] at h'
  exact ⟨h'.2, h'.1⟩

theorem tailSafe_append (p A B : Str) (hA : tailSafe p A = true)
    (hB : tailSafe p B = true) : tailSafe p (A ++ B) = true := by
  unfold tailSafe at *
  rw [List.reverse_append, List.take_append_eq_append_take, List.all_append]
  rw [hB]
  have h2 : (A.reverse.take (p.length - 1 - B.reverse.length)).all
      (fun c => !(ciEq (p.headD ' ') c)) = true := by
    have he : A.reverse.take (p.length - 1 - B.reverse.length)
        = (A.reverse.take (p.length - 1)).take (p.length - 1 - B.reverse.length) := by
      rw [List.take_take]
      congr 1
      omega
    rw [he]
    exact all_take_of_all _ _ _ hA
  rw [h2]
  rfl

theorem tailSafe_of_cons (p : Str) (c : Char) (A : Str)
    (h : tailSafe p (c :: A) = true) : tailSafe p A = true := by
  unfold tailSafe at *
  rw [show (c :: A).reverse = A.reverse ++ [c] from by simp,
    List.take_append_eq_append_take, List.all_append, Bool.and_eq_true] at h
  exact h.1

theorem noOpenB_of_cons (p : Str) (c : Char) (A : Str)
    (h : noOpenB p (c :: A) = true) : noOpenB p A = true := by
  have : (!(leadsWithCI p (c :: A)) && noOpenB p A) = true := h
  rw [Bool.and_eq_true] at this
  exact this.2

theorem noOpenB_append (p : Str) (hp : p ≠ []) (A B : Str) (hA : noOpenB p A = true)
    (ht : tailSafe p A = true) (hB : noOpenB p B = true) :
    noOpenB p (A ++ B) = true := by
  induction A with
  | nil => exact hB
  | cons c A' ih =>
    have hA' : noOpenB p A' = true := noOpenB_of_cons p c A' hA
    have ht' : tailSafe p A' = true := tailSafe_of_cons p c A' ht
    show (!(leadsWithCI p (c :: A' ++ B)) && noOpenB p (A' ++ B)) = true
    rw [ih hA' ht']
    obtain ⟨pc, pt, rfl⟩ : ∃ pc pt, p = pc :: pt := by
      cases p with
      | nil => exact absurd rfl hp
      | cons pc pt => exact ⟨pc, pt, rfl⟩
    by_cases hl : (pc :: pt).length ≤ (c :: A').length
    · rw [show (c :: A' ++ B) = (c :: A') ++ B from rfl,
        leadsWithCI_append_left _ _ _ hl]
      have : (!(leadsWithCI (pc :: pt) (c :: A')) && noOpenB (pc :: pt) A') = true := hA
      rw [Bool.and_eq_true] at this
      rw [Bool.not_eq_true'] at this
      rw [this.1]
      rfl
    · have hcm : c ∈ (c :: A').reverse.take ((pc :: pt).length - 1) := by
        rw [List.take_of_length_le (by simp at hl ⊢; omega)]
        rw [List.mem_reverse]
        exact List.mem_cons_self c A'
      unfold tailSafe at ht
      rw [List.all_eq_true] at ht
      have hce := ht c hcm
      rw [Bool.not_eq_true'] at hce
      show (!(ciEq pc c && leadsWithCI pt (A' ++ B)) && true) = true
      have : ciEq pc c = false := hce
      rw [this]
      rfl

theorem noSpanB_append (p : Str) (hp : p ≠ []) (A B : Str)
    (hA : noSpanB p A = true) (hB : noSpanB p B = true) :
    noSpanB p (A ++ B) = true := by
  induction A with
  | nil => exact hB
  | cons c A' ih =>
    obtain ⟨hA', hlead⟩ := noSpanB_of_cons p c A' hA
    show (!(leadsWithCI (p.take (c :: (A' ++ B)).length) (c :: (A' ++ B)))
      && noSpanB p (A' ++ B)) = true
    rw [ih hA']
    have hk : leadsWithCI (p.take (c :: (A' ++ B)).length) ((c :: A') ++ B)
        = false := by
      apply leads_take_split (c :: A') (p.take (c :: (A' ++ B)).length) B
      rw [List.take_take]
      rw [show min (c :: A').length (c :: (A' ++ B)).length = (c :: A').length
        from by simp]
      exact hlead
    have hk' : leadsWithCI (p.take (c :: (A' ++ B)).length) (c :: (A' ++ B))
        = false := hk
    rw [hk']
    rfl

theorem noSpanB_nil (p : Str) : noSpanB p [] = true := rfl

theorem noSpanB_flatten (p : Str) (hp : p ≠ []) (L : List Str)
    (h : ∀ x ∈ L, noSpanB p x = true) : noSpanB p L.flatten = true := by
  induction L with
  | nil => exact noSpanB_nil p
  | cons x L' ih =>
    rw [List.flatten_cons]
    exact noSpanB_append p hp _ _ (h x (List.mem_cons_self x L'))
      (ih (fun y hy => h y (List.mem_cons_of_mem x hy)))

theorem dropWhile_id_of_head (q : Char → Bool) (s : Str)
    (h : ∀ c ∈ s, q c = false) : s.dropWhile q = s := by
  cases s with
  | nil => rfl
  | cons c t =>
    rw [List.dropWhile_cons, h c (List.mem_cons_self c t)]
    simp

theorem pyStrip_all_nows (s : Str) (h : ∀ c ∈ s, isWsC c = false) : pyStrip s = s := by
  unfold pyStrip
  rw [dropWhile_id_of_head isWsC s h]
  rw [dropWhile_id_of_head isWsC s.reverse
    (fun c hc => h c (List.mem_reverse.mp hc))]
  exact List.reverse_reverse s

theorem all_mono (q r : Char → Bool) (s : Str) (h : s.all q = true)
    (hqr : ∀ c, q c = true → r c = true) : s.all r = true := by
  rw [List.all_eq_true] at *
  exact fun c hc => hqr c (h c hc)

theorem all_joinSep (q : Char → Bool) (sep : Str) (L : List Str)
    (hsep : sep.all q = true) (h : ∀ x ∈ L, x.all q = true) :
    (joinSep sep L).all q = true := by
  induction L with
  | nil => rfl
  | cons x L' ih =>
    cases L' with
    | nil => exact h x (List.mem_cons_self x [])
    | cons y L'' =>
      show ((x ++ sep ++ joinSep sep (y :: L'')).all q) = true
      rw [List.all_append, List.all_append]
      rw [h x (List.mem_cons_self x _), hsep,
        ih (fun z hz => h z (List.mem_cons_of_mem x hz))]
      rfl

theorem occursIn_trans (a b c : Str) (h1 : occursIn a b) (h2 : occursIn b c) :
    occursIn a c := by
  obtain ⟨x, y, rfl⟩ := h1
  obtain ⟨u, v, rfl⟩ := h2
  exact ⟨u ++ x, y ++ v, by simp⟩

theorem occursIn_flatten_of_mem (x : Str) (L : List Str) (h : x ∈ L) :
    occursIn x L.flatten := by
  obtain ⟨pre, post, rfl⟩ := List.append_of_mem h
  rw [List.flatten_append, List.flatten_cons]
  exact ⟨pre.flatten, post.flatten, by simp⟩

theorem clean_lt (s : Str) (h : s.all cleanC = true) :
    s.all (fun c => !(ciEq '<' c)) = true := by
  refine all_mono cleanC _ s h (fun c hc => ?_)
  unfold cleanC at hc
  rw [Bool.and_eq_true, Bool.and_eq_true] at hc
  exact hc.2

theorem noOpen_of_clean (tag s : Str) (h : s.all cleanC = true) :
    noOpenB ('<' :: tag) s = true :=
  noOpenB_of_all '<' tag s (clean_lt s h)

theorem bodyOk_append (A B : Str) (hA : bodyOk A = true) (hB : bodyOk B = true) :
    bodyOk (A ++ B) = true := by
  unfold bodyOk at *
  rw [Bool.and_eq_true, Bool.and_eq_true, Bool.and_eq_true] at hA hB
  rw [List.all_append, List.all_append]
  rw [hA.1.1.1, hB.1.1.1, hA.1.1.2, hB.1.1.2]
  rw [noSpanB_append _ (by decide) A B hA.1.2 hB.1.2,
    noSpanB_append _ (by decide) A B hA.2 hB.2]
  rfl

theorem bodyOk_nil : bodyOk [] = true := by decide

theorem bodyOk_joinSep (sep : Str) (L : List Str) (hsep : bodyOk sep = true)
    (h : ∀ x ∈ L, bodyOk x = true) : bodyOk (joinSep sep L) = true := by
  induction L with
  | nil => exact bodyOk_nil
  | cons x L' ih =>
    cases L' with
    | nil => exact h x (List.mem_cons_self x [])
    | cons y L'' =>
      show bodyOk (x ++ sep ++ joinSep sep (y :: L'')) = true
      exact bodyOk_append _ _ (bodyOk_append _ _ (h x (List.mem_cons_self x _)) hsep)
        (ih (fun z hz => h z (List.mem_cons_of_mem x hz)))

theorem rstripPct_digits (s : Str) (h : s.all isDigitC = true) : rstripPct s = s := by
  unfold rstripPct
  rw [List.all_eq_true] at h
  rw [dropWhile_id_of_head _ s.reverse (fun c hc => by
    have hd := h c (List.mem_reverse.mp hc)
    simp only [decide_eq_false_iff_not]
    exact digit_not c '%' hd (by decide))]
  exact List.reverse_reverse s

theorem parse_stat_digits (s : Str) (h1 : s ≠ []) (h2 : s.all isDigitC = true) :
    parse_stat s = some ⟨(digitsVal s : Int), 1⟩ := by
  unfold parse_stat pyFloat
  rw [List.all_eq_true] at h2
  rw [pyStrip_all_nows s (fun c hc => digit_not_ws c (h2 c hc))]
  rw [rstripPct_digits s (by rw [List.all_eq_true]; exact h2)]
  exact parseDecimal_digits s h1 (fun c hc => h2 c hc)

